import Mathlib

/-!
Verification of the hybrid ranking engine of the murm-search repository.

The definitions below are a shallow embedding of the server-side search code
(the Express server and its serverless twin) together with, where a claim
requires it, the legacy client-side search in `src/app.js`.

Modelling conventions:
* JavaScript strings are modelled as `List Char` (named `Str` below), because
  the engine only ever uses lower-casing, trimming, splitting, substring
  search and concatenation, all of which are defined here structurally so
  that concrete runs reduce inside the kernel.  Case mapping is modelled for
  ASCII letters (the data the engine manipulates is ASCII apart from a few
  static alias entries that are only ever compared verbatim).
* JavaScript numbers are modelled as exact rationals `ℚ`; the scoring
  pipeline only adds, multiplies, divides and compares, so every formula
  carries over verbatim.
* JavaScript objects used as dictionaries (`penalties`, `deadLinks`,
  `irrelevantQs`) are modelled as association lists with the exact JS update
  semantics: updating an existing key keeps its position, a new key is
  appended, so iteration order is insertion order.
* `Array.prototype.sort` is stable in all modern engines and is invoked with
  the comparator `(a, b) => b.score - a.score`; a stable sort for a given
  comparator is unique as a function, so it is modelled by a stable
  insertion sort, descending by score.
-/

/-- JavaScript strings, modelled as lists of characters. -/
abbrev Str := List Char

/-- Coerce a Lean string literal to the `Str` model. -/
def str (s : String) : Str := s.data

/-- ASCII apostrophe (the only character removed by the `replace` regexes in
the source). -/
def aposChar : Char := Char.ofNat 39

/-- ASCII lower-casing of a single character, modelling
`String.prototype.toLowerCase` on the ASCII range. -/
def asciiLower (c : Char) : Char :=
  if 'A' ≤ c ∧ c ≤ 'Z' then Char.ofNat (c.toNat + 32) else c

/-- ASCII upper-casing of a single character, modelling
`String.prototype.toUpperCase` on the ASCII range. -/
def asciiUpper (c : Char) : Char :=
  if 'a' ≤ c ∧ c ≤ 'z' then Char.ofNat (c.toNat - 32) else c

/-- Lower-case a whole string, `s.toLowerCase()`. -/
def lowerStr (s : Str) : Str := s.map asciiLower

/-- Does `hay` start with `needle`? (helper for substring search). -/
def startsWithStr : Str → Str → Bool
  | _, [] => true
  | [], _ :: _ => false
  | c :: cs, d :: ds => c == d && startsWithStr cs ds

/-- JavaScript `hay.includes(needle)`: substring containment. -/
def containsSub (hay needle : Str) : Bool :=
  if startsWithStr hay needle then true
  else
    match hay with
    | [] => false
    | _ :: rest => containsSub rest needle

/-- Strip ASCII apostrophes, `s.replace(/['']/g, "")` (both characters in the
source regex are the ASCII apostrophe). -/
def stripApos (s : Str) : Str := s.filter (fun c => c ≠ aposChar)

/-- Split `s` at every character satisfying `p`, dropping empty segments.
`String.prototype.split(/\s+/)` (and the single-character-class splits used by
the source) differ from this only by possibly producing empty segments, and
every use in the source filters the segments by a minimum length of at least
2, so dropping empty segments is exact. -/
def splitDropAux (p : Char → Bool) : Str → Str → List Str
  | [], cur => [cur.reverse]
  | c :: cs, cur =>
    if p c then cur.reverse :: splitDropAux p cs [] else splitDropAux p cs (c :: cur)

/-- Split on `p`, dropping empty segments (see `splitDropAux`). -/
def splitDrop (p : Char → Bool) (s : Str) : List Str :=
  (splitDropAux p s []).filter (fun seg => seg ≠ [])

/-- Split on whitespace, `s.split(/\s+/)`. -/
def splitWs (s : Str) : List Str := splitDrop Char.isWhitespace s

/-- JavaScript `String.prototype.trim`. -/
def trimStr (s : Str) : Str :=
  ((s.dropWhile Char.isWhitespace).reverse.dropWhile Char.isWhitespace).reverse

/-- Replace every occurrence of the HTML escape `&amp;` by `&`
(`value.replace(/&amp;/g, "&")`). -/
def replaceAmp : Str → Str
  | '&' :: 'a' :: 'm' :: 'p' :: ';' :: rest => '&' :: replaceAmp rest
  | c :: rest => c :: replaceAmp rest
  | [] => []

/-- JavaScript `Set.prototype.add` on a set modelled as a duplicate-free list
in insertion order. -/
def setAdd (l : List Str) (x : Str) : List Str :=
  if x ∈ l then l else l ++ [x]

/-- Insertion-ordered deduplication, `[...new Set(xs)]`. -/
def dedupList (xs : List Str) : List Str := xs.foldl setAdd []

/-- JavaScript `Array.prototype.join(sep)`. -/
def joinSep (sep : Str) : List Str → Str
  | [] => []
  | [x] => x
  | x :: rest => x ++ sep ++ joinSep sep rest

/-- Title-case a term: `t.charAt(0).toUpperCase() + t.slice(1)`. -/
def titleCase (t : Str) : Str :=
  match t with
  | [] => []
  | c :: rest => asciiUpper c :: rest

/-- The static geo alias table `GEO_ALIASES`, in property-creation order
(which is the iteration order of `Object.keys` / `Object.entries`). -/
def GEO_ALIASES : List (Str × List Str) :=
  [ (str "uk", [str "england", str "scotland", str "wales", str "northern ireland", str "united kingdom", str "gb"])
  , (str "britain", [str "england", str "scotland", str "wales", str "united kingdom", str "gb"])
  , (str "united kingdom", [str "england", str "scotland", str "wales", str "northern ireland", str "united kingdom", str "gb"])
  , (str "england", [str "england"])
  , (str "scotland", [str "scotland"])
  , (str "wales", [str "wales"])
  , (str "northern ireland", [str "northern ireland"])
  , (str "east anglia", [str "norfolk", str "suffolk", str "cambridgeshire", str "east anglia"])
  , (str "west country", [str "devon", str "cornwall", str "somerset", str "dorset"])
  , (str "home counties", [str "surrey", str "kent", str "essex", str "hertfordshire", str "buckinghamshire", str "berkshire"])
  , (str "midlands", [str "west midlands", str "east midlands", str "warwickshire", str "staffordshire", str "derbyshire", str "nottinghamshire", str "leicestershire"])
  , (str "south east", [str "surrey", str "kent", str "sussex", str "hampshire"])
  , (str "north west", [str "lancashire", str "cumbria", str "merseyside", str "greater manchester", str "cheshire"])
  , (str "north east", [str "northumberland", str "tyne and wear", str "county durham"])
  , (str "greater london", [str "london"])
  , (str "us", [str "united states", str "us", str "usa"])
  , (str "usa", [str "united states", str "us", str "usa"])
  , (str "united states", [str "united states", str "us", str "usa"])
  , (str "america", [str "united states", str "us", str "usa"])
  , (str "france", [str "france", str "fr", str "frankreich"])
  , (str "frankreich", [str "france", str "fr", str "frankreich"])
  , (str "germany", [str "germany", str "de", str "deutschland"])
  , (str "deutschland", [str "germany", str "de", str "deutschland"])
  , (str "spain", [str "spain", str "es", str "españa", str "espana"])
  , (str "españa", [str "spain", str "es", str "españa", str "espana"])
  , (str "espana", [str "spain", str "es", str "españa", str "espana"])
  , (str "italy", [str "italy", str "it"])
  , (str "brazil", [str "brazil", str "br"])
  , (str "canada", [str "canada", str "ca"])
  , (str "australia", [str "australia", str "au"])
  , (str "india", [str "india", str "in"])
  , (str "japan", [str "japan", str "jp"])
  , (str "netherlands", [str "netherlands", str "nl"])
  , (str "belgium", [str "belgium", str "be"])
  , (str "austria", [str "austria", str "at", str "österreich", str "oesterreich"])
  , (str "österreich", [str "austria", str "at", str "österreich", str "oesterreich"])
  , (str "switzerland", [str "switzerland", str "ch", str "schweiz", str "suisse", str "svizzera"])
  , (str "schweiz", [str "switzerland", str "ch", str "schweiz", str "suisse", str "svizzera"])
  , (str "sweden", [str "sweden", str "se"])
  , (str "portugal", [str "portugal", str "pt"])
  , (str "kenya", [str "kenya", str "ke"])
  , (str "ecuador", [str "ecuador", str "ec"])
  , (str "ireland", [str "ireland", str "ie"])
  , (str "new zealand", [str "new zealand", str "nz"])
  ]

/-- Look up an alias key's expansion (`GEO_ALIASES[key]`). -/
def aliasExpansion (key : Str) : List Str :=
  ((GEO_ALIASES.find? (fun e => e.1 == key)).map (fun e => e.2)).getD []

/-- Stable insertion into a list sorted by length descending.  `sortByLenDesc`
processes the input right to left, so when `x` is inserted every element of the
accumulator comes after `x` in the original list; placing `x` before all
equal-length elements therefore reproduces the unique stable order of
`keys.sort((a, b) => b.length - a.length)`. -/
def insertByLenDesc (x : Str) : List Str → List Str
  | [] => [x]
  | y :: ys => if x.length ≥ y.length then x :: y :: ys else y :: insertByLenDesc x ys

/-- Stable sort by length descending (see `insertByLenDesc`). -/
def sortByLenDesc : List Str → List Str
  | [] => []
  | x :: xs => insertByLenDesc x (sortByLenDesc xs)

/-- One directory entry, the fields consulted by the ranking engine.  Optional
fields model `undefined`; the JS code treats the empty string as falsy, which
is modelled explicitly where it matters. -/
structure Profile where
  profile_url : Str := []
  name : Option Str := none
  description : Option Str := none
  tags : List Str := []
  locality : Option Str := none
  region : Option Str := none
  country : Option Str := none
deriving DecidableEq, Repr, Inhabited

/-- Split a composite location field into normalized segments
(`splitLocationSegments` in the source): replace `&amp;` by `&`, split on
`:`/`|`/`&`, trim and lower-case each segment, keep segments of length ≥ 2. -/
def splitLocationSegments (value : Str) : List Str :=
  ((splitDrop (fun c => c == ':' || c == '|' || c == '&') (replaceAmp value)).map
    (fun s => lowerStr (trimStr s))).filter (fun s => s.length ≥ 2)

/-- Add the segments of an optional, truthy field to the location set
(the `if (p.locality) ...` pattern of `buildLocationIndex`). -/
def addFieldSegments (acc : List Str) (field : Option Str) : List Str :=
  match field with
  | none => acc
  | some v => if v = [] then acc else (splitLocationSegments v).foldl setAdd acc

/-- The Location Index, `buildLocationIndex`: the set of all normalized
locality/region/country segments across the corpus. -/
def buildLocationIndex (profilesMeta : List Profile) : List Str :=
  profilesMeta.foldl
    (fun acc p => addFieldSegments (addFieldSegments (addFieldSegments acc p.locality) p.region) p.country)
    []

/-- State of the alias-scanning loop of `extractGeoTerms`: emitted terms and
the consumed-word set `matched`. -/
def aliasScanStep (q : Str) (st : List Str × List Str) (key : Str) : List Str × List Str :=
  if containsSub q key && !(st.2.contains key) then
    (st.1 ++ aliasExpansion key, setAdd ((splitWs key).foldl setAdd st.2) key)
  else st

/-- The alias-scanning loop of `extractGeoTerms` over the length-sorted keys,
starting from no emitted terms and an empty consumed set. -/
def aliasStage (q : Str) : List Str × List Str :=
  (sortByLenDesc (GEO_ALIASES.map (fun e => e.1))).foldl (aliasScanStep q) ([], [])

/-- One step of the single-word Location Index scan of `extractGeoTerms`. -/
def wordStep (kl matched : List Str) (terms : List Str) (word : Str) : List Str :=
  if terms.contains word || matched.contains word then terms
  else if kl.contains word then terms ++ [word] else terms

/-- One step of the two- and three-word-window Location Index scan of
`extractGeoTerms`. -/
def windowStep (kl : List Str) (terms : List Str) (w : Str) : List Str :=
  if !(terms.contains w) && kl.contains w then terms ++ [w] else terms

/-- The consecutive 2-word windows `words[i] + " " + words[i+1]`. -/
def pairWindows (words : List Str) : List Str :=
  (words.zip words.tail).map (fun e => e.1 ++ str " " ++ e.2)

/-- The consecutive 3-word windows. -/
def tripleWindows (words : List Str) : List Str :=
  ((words.zip words.tail).zip (words.tail.tail)).map
    (fun e => e.1.1 ++ str " " ++ e.1.2 ++ str " " ++ e.2)

/-- `extractGeoTerms(query)` against a given Location Index `kl`:
scan alias keys in descending length order, then single query words, then
consecutive 2- and 3-word windows, against the Location Index. -/
def extractGeoTerms (kl : List Str) (query : Str) : List Str :=
  let q := stripApos (lowerStr query)
  let st := aliasStage q
  let words := (splitWs q).filter (fun w => w.length ≥ 3)
  let terms := words.foldl (wordStep kl st.2) st.1
  let terms := (pairWindows words).foldl (windowStep kl) terms
  (tripleWindows words).foldl (windowStep kl) terms

/-- Does a profile match any geo term (`profileMatchesGeo`): case-insensitive
substring containment against the truthy country/region/locality fields. -/
def profileMatchesGeo (p : Profile) (geoTerms : List Str) : Bool :=
  let fields := (([p.country, p.region, p.locality].filterMap id).filter
    (fun s => s ≠ [])).map lowerStr
  geoTerms.any (fun term => fields.any (fun field => containsSub field term))

/-- The stopword for "what's" (its apostrophe survives because stopwords are
compared against already-apostrophe-stripped query words). -/
def whatsWithApos : Str := str "what" ++ [aposChar] ++ str "s"

/-- The `STOPWORDS` set of the server-side engine. -/
def STOPWORDS : List Str :=
  [ str "the", str "and", str "for", str "are", str "but", str "not", str "you", str "all", str "can", str "has", str "her", str "was", str "one", str "our", str "out", str "his", str "how", str "its", str "may", str "who"
  , str "did", str "get", str "let", str "say", str "she", str "too", str "use", str "with", str "that", str "this", str "from", str "they", str "been", str "have", str "many", str "some", str "them", str "than", str "each"
  , str "make", str "like", str "into", str "over", str "such", str "here", str "what", str "about", str "which", str "when", str "there", str "their", str "will", str "would", str "could", str "should"
  , str "any", str "does", str "please", str "help", str "want", str "need", str "looking", str "much", str "got", str "your", str "every", str "most", str "these", str "those"
  , str "shall", str "might", str "just", str "also", str "very", str "really", str "quite", whatsWithApos, str "whats"
  , str "show", str "find", str "search", str "list", str "give", str "tell", str "see", str "orgs", str "org", str "know", str "where"
  , str "everything", str "anything", str "things", str "places", str "stuff"
  , str "projects", str "organisations", str "organizations", str "groups", str "initiatives", str "based", str "near", str "nearby", str "around", str "related"
  ]

/-- Every word occurring in the alias table (keys and expansions), the seed of
the geo-exclusion set of `extractTopicWords`. -/
def geoAliasWordSeed : List Str :=
  GEO_ALIASES.foldl
    (fun s e => e.2.foldl (fun s v => (splitWs v).foldl setAdd s) ((splitWs e.1).foldl setAdd s))
    []

/-- `extractTopicWords(query, geoTerms)`: query words of length ≥ 3 that are
neither stopwords nor geo words. -/
def extractTopicWords (query : Str) (geoTerms : List Str) : List Str :=
  let geoAliasWords := geoTerms.foldl (fun s t => (splitWs t).foldl setAdd s) geoAliasWordSeed
  (splitWs (stripApos (lowerStr query))).filter
    (fun w => w.length ≥ 3 && !(STOPWORDS.contains w) && !(geoAliasWords.contains w))

/-- Embedding dimension, `EMBED_DIM = 384`. -/
def EMBED_DIM : ℕ := 384

/-- Number of ranked results shown, `TOP_K_DISPLAY = 20`. -/
def TOP_K_DISPLAY : ℕ := 20

/-- Cap of the geo-browse list, `TOP_K_GEO_BROWSE = 50`. -/
def TOP_K_GEO_BROWSE : ℕ := 50

/-- Minimum number of geo matches, `GEO_FILTER_MIN = 5`. -/
def GEO_FILTER_MIN : ℕ := 5

/-- Relevance threshold, `RELEVANCE_THRESHOLD = 0.35`. -/
def RELEVANCE_THRESHOLD : ℚ := 35 / 100

/-- The dequantized component `i` of stored vector `idx`, the loop body of
`cosineSimilarityInt8`: `(embInt8[offset + i] + 128) * scale + mn` with
`range = mx - mn || 1` and `scale = range / 255`. -/
def dequantAt (embInt8 : List ℤ) (embScales : List ℚ) (idx i : ℕ) : ℚ :=
  let mn := embScales.getD (idx * 2) 0
  let mx := embScales.getD (idx * 2 + 1) 0
  let range := if mx - mn = 0 then 1 else mx - mn
  let scale := range / 255
  ((embInt8.getD (idx * EMBED_DIM + i) 0 : ℚ) + 128) * scale + mn

/-- Accumulate `f 0 + f 1 + ⋯ + f (n-1)`, the `for (i = 0; i < n; i++)`
accumulation pattern. -/
def accumDot (f : ℕ → ℚ) : ℕ → ℚ
  | 0 => 0
  | n + 1 => accumDot f n + f n

/-- `cosineSimilarityInt8(queryVec, idx)`: approximate dot product of the
query vector against the dequantized stored vector `idx`. -/
def cosineSimilarityInt8 (queryVec : List ℚ) (embInt8 : List ℤ) (embScales : List ℚ)
    (idx : ℕ) : ℚ :=
  accumDot (fun i => queryVec.getD i 0 * dequantAt embInt8 embScales idx i) EMBED_DIM

/-- `topicKeywordBoost(profile, topicWords)`: the fraction of topic words
occurring as substrings of the profile's lower-cased name + description +
tags text; `0` if there are no topic words. -/
def profileText (p : Profile) : Str :=
  lowerStr (joinSep (str " ")
    ((([p.name, p.description] ++ p.tags.map some).filterMap id).filter (fun s => s ≠ [])))

/-- Number of topic words found in the profile text (the `matches` counter). -/
def topicMatchCount (p : Profile) (topicWords : List Str) : ℕ :=
  topicWords.foldl (fun m w => if containsSub (profileText p) w then m + 1 else m) 0

/-- See `topicMatchCount`; this is `topicKeywordBoost` itself. -/
def topicKeywordBoost (p : Profile) (topicWords : List Str) : ℚ :=
  if topicWords = [] then 0
  else (topicMatchCount p topicWords : ℚ) / (topicWords.length : ℚ)

/-- The immutable per-request snapshot: profiles, quantized embeddings with
their scale pairs, and the current penalty table. -/
structure ServerData where
  profilesMeta : List Profile := []
  embInt8 : List ℤ := []
  embScales : List ℚ := []
  penalties : List (Str × ℚ) := []
deriving Repr

/-- Association-list lookup with JavaScript object semantics (`m[k]`,
`undefined` as `none`). -/
def objGet (m : List (Str × α)) (k : Str) : Option α :=
  match m with
  | [] => none
  | (k', v) :: rest => if k' == k then some v else objGet rest k

/-- One scored entry of the result list. -/
structure Scored where
  idx : ℕ := 0
  profile : Profile := {}
  score : ℚ := 0
  rawSemantic : ℚ := 0
  kwBoost : ℚ := 0
deriving DecidableEq, Repr, Inhabited

/-- `scoreProfile(idx, geoMultiplier)` of the server-side engine (a closure
over the query embedding, topic words and penalty table). -/
def scoreProfile (d : ServerData) (queryEmbedding : Option (List ℚ))
    (topicWords : List Str) (idx : ℕ) (geoMultiplier : ℚ) : Scored :=
  let p := d.profilesMeta.getD idx default
  let semantic : ℚ :=
    match queryEmbedding with
    | some qv => cosineSimilarityInt8 qv d.embInt8 d.embScales idx
    | none => 0
  let kwBoost := topicKeywordBoost p topicWords
  let penaltyVal := (objGet d.penalties p.profile_url).getD 1
  { idx := idx
    profile := p
    score := semantic * geoMultiplier * (1 + kwBoost * 1) * penaltyVal
    rawSemantic := min 1 (semantic * (1 + kwBoost * 1))
    kwBoost := kwBoost }

/-- Stable insertion into a list sorted by score descending.  `sortScored`
processes the input right to left, so placing `x` before all equal-score
elements of the accumulator reproduces the unique stable order of
`arr.sort((a, b) => b.score - a.score)`. -/
def insertScored (x : Scored) : List Scored → List Scored
  | [] => [x]
  | y :: ys => if y.score ≤ x.score then x :: y :: ys else y :: insertScored x ys

/-- Stable sort by score descending (see `insertScored`). -/
def sortScored : List Scored → List Scored
  | [] => []
  | x :: xs => insertScored x (sortScored xs)

/-- Structured hints from the upstream query-understanding step, as built by
the search endpoint: `{ geo: geo || [], topic: topic || "", queryType:
queryType || null }`. -/
structure LlmParams where
  geo : List Str := []
  topic : Str := []
  queryType : Option Str := none
deriving Repr

/-- The analyzed query: geo terms, topic words and classification
(the first block of `searchProfilesServer`). -/
def analyzeQuery (kl : List Str) (query : Str) (llmParams : Option LlmParams) :
    List Str × List Str × Str :=
  match llmParams with
  | some lp =>
    let geoTerms := lp.geo.map lowerStr
    let topicWords := if lp.topic ≠ [] then extractTopicWords lp.topic [] else []
    let computed : Str :=
      if geoTerms.length > 0 ∧ topicWords.length > 0 then str "geo+topic"
      else if geoTerms.length > 0 then str "geo-only" else str "topic-only"
    let queryType :=
      match lp.queryType with
      | some s => if s = [] then computed else s
      | none => computed
    (geoTerms, topicWords, queryType)
  | none =>
    let geoTerms := extractGeoTerms kl query
    let topicWords := extractTopicWords query geoTerms
    let hasTopic := topicWords.length > 0
    let queryType : Str :=
      if geoTerms.length > 0 ∧ ¬hasTopic then str "geo-only"
      else if geoTerms.length > 0 ∧ hasTopic then str "geo+topic" else str "topic-only"
    (geoTerms, topicWords, queryType)

/-- Indices of the geo-matched profiles (the `geoMatchIndices` loop). -/
def geoMatchIdxs (d : ServerData) (geoTerms : List Str) : List ℕ :=
  (List.range d.profilesMeta.length).filter
    (fun i => profileMatchesGeo (d.profilesMeta.getD i default) geoTerms)

/-- A geo-browse entry: score is the description length
(`{ idx, profile, score: descLen, rawSemantic: 0, kwBoost: 0 }`). -/
def browseEntry (d : ServerData) (idx : ℕ) : Scored :=
  let p := d.profilesMeta.getD idx default
  { idx := idx
    profile := p
    score := ((p.description.getD []).length : ℚ)
    rawSemantic := 0
    kwBoost := 0 }

/-- The geo-browse list: all geo matches ranked by description length
descending. -/
def geoBrowseSorted (d : ServerData) (gms : List ℕ) : List Scored :=
  sortScored (gms.map (browseEntry d))

/-- The scored geo matches of the geo+topic tier, sorted descending. -/
def scoredGeoSorted (d : ServerData) (queryEmbedding : Option (List ℚ))
    (topicWords : List Str) (gms : List ℕ) : List Scored :=
  sortScored (gms.map (fun idx => scoreProfile d queryEmbedding topicWords idx 1))

/-- The strict geo+topic filter: top-`topK` by score, keeping entries with
`rawSemantic ≥ RELEVANCE_THRESHOLD` and `kwBoost > 0`. -/
def strictFiltered (d : ServerData) (queryEmbedding : Option (List ℚ))
    (topicWords : List Str) (gms : List ℕ) (topK : ℕ) : List Scored :=
  ((scoredGeoSorted d queryEmbedding topicWords gms).take topK).filter
    (fun r => decide (RELEVANCE_THRESHOLD ≤ r.rawSemantic) && decide (0 < r.kwBoost))

/-- The "no usable geo match" note:
`No results found matching that location. Searched: <TitleCased terms>.` -/
def geoNoteFor (geoTerms : List Str) : Str :=
  str "No results found matching that location. Searched: " ++
    joinSep (str ", ") ((dedupList geoTerms).map titleCase) ++ str "."

/-- The whole corpus scored and sorted descending (pure topic search,
`allScored`). -/
def topicSortedAll (d : ServerData) (queryEmbedding : Option (List ℚ))
    (topicWords : List Str) : List Scored :=
  sortScored ((List.range d.profilesMeta.length).map
    (fun i => scoreProfile d queryEmbedding topicWords i 1))

/-- The topic-only filter: top-`topK` by score, keeping entries with
`rawSemantic ≥ RELEVANCE_THRESHOLD` and (no topic words, or a keyword hit, or
`rawSemantic ≥ 0.5`). -/
def topicFiltered (d : ServerData) (queryEmbedding : Option (List ℚ))
    (topicWords : List Str) (topK : ℕ) : List Scored :=
  ((topicSortedAll d queryEmbedding topicWords).take topK).filter
    (fun r => decide (RELEVANCE_THRESHOLD ≤ r.rawSemantic) &&
      (!(decide (topicWords.length > 0)) || decide (0 < r.kwBoost) ||
        decide ((1:ℚ)/2 ≤ r.rawSemantic)))

/-- The diagnostic count of profiles anywhere in the corpus with any keyword
overlap (`totalTopicMatches`). -/
def totalTopicMatchCount (d : ServerData) (topicWords : List Str) : ℕ :=
  ((List.range d.profilesMeta.length).filter
    (fun i => decide (0 < topicKeywordBoost (d.profilesMeta.getD i default) topicWords))).length

/-- The result record of `searchProfilesServer`; fields that are absent on
some return paths are `Option`s. -/
structure SearchResult where
  results : List Scored := []
  geoNote : Option Str := none
  geoTerms : List Str := []
  topicWords : List Str := []
  queryType : Str := []
  totalGeoMatches : Option ℕ := none
  totalTopicMatches : Option ℕ := none
  originalTopicWords : Option (List Str) := none
deriving Repr

/-- `searchProfilesServer(queryEmbedding, query, topK, llmParams)`:
the tiered hybrid ranking engine of the server. -/
def searchProfilesServer (d : ServerData) (queryEmbedding : Option (List ℚ))
    (query : Str) (topK : ℕ) (llmParams : Option LlmParams) : SearchResult :=
  let kl := buildLocationIndex d.profilesMeta
  let a := analyzeQuery kl query llmParams
  let geoTerms := a.1
  let topicWords := a.2.1
  let queryType := a.2.2
  let hasTopicWords := topicWords.length > 0
  if geoTerms.length > 0 then
    let gms := geoMatchIdxs d geoTerms
    if gms.length ≥ GEO_FILTER_MIN then
      if ¬hasTopicWords then
        let sorted := geoBrowseSorted d gms
        { results := sorted.take TOP_K_GEO_BROWSE
          geoNote := none
          geoTerms := geoTerms
          topicWords := topicWords
          queryType := queryType
          totalGeoMatches := some sorted.length }
      else
        let filtered := strictFiltered d queryEmbedding topicWords gms topK
        if filtered = [] then
          let sorted := geoBrowseSorted d gms
          { results := sorted.take TOP_K_GEO_BROWSE
            geoNote := none
            geoTerms := geoTerms
            topicWords := topicWords
            queryType := str "geo+topic-fallback"
            totalGeoMatches := some sorted.length
            originalTopicWords := some topicWords }
        else
          { results := filtered
            geoNote := none
            geoTerms := geoTerms
            topicWords := topicWords
            queryType := queryType }
    else
      { results := []
        geoNote := some (geoNoteFor geoTerms)
        geoTerms := geoTerms
        topicWords := topicWords
        queryType := queryType }
  else
    { results := topicFiltered d queryEmbedding topicWords topK
      geoNote := none
      geoTerms := geoTerms
      topicWords := topicWords
      queryType := queryType
      totalTopicMatches :=
        if hasTopicWords then some (totalTopicMatchCount d topicWords) else none }

/-- Association-list update with JavaScript object semantics (`m[k] = v`):
an existing key keeps its position, a new key is appended. -/
def objSet (m : List (Str × α)) (k : Str) (v : α) : List (Str × α) :=
  match m with
  | [] => [(k, v)]
  | (k', v') :: rest => if k' == k then (k, v) :: rest else (k', v') :: objSet rest k v

/-- A user report: either a dead link or an irrelevance flag for a query. -/
structure Report where
  profile_url : Str := []
  report_type : Str := []
  query : Option Str := none
deriving DecidableEq, Repr

/-- One step of the report-partitioning loop of `computePenalties`: count
dead-link reports per profile and collect the set of queries flagging each
profile as irrelevant (`r.query || ""` coerces a missing query to the empty
string). -/
def partStep (st : List (Str × ℕ) × List (Str × List Str)) (r : Report) :
    List (Str × ℕ) × List (Str × List Str) :=
  if r.report_type == str "dead_link" then
    (objSet st.1 r.profile_url ((objGet st.1 r.profile_url).getD 0 + 1), st.2)
  else if r.report_type == str "irrelevant" then
    (st.1, objSet st.2 r.profile_url (setAdd ((objGet st.2 r.profile_url).getD []) (r.query.getD [])))
  else st

/-- The report-partitioning loop of `computePenalties` (see `partStep`). -/
def partitionReports (reports : List Report) :
    List (Str × ℕ) × List (Str × List Str) :=
  reports.foldl partStep ([], [])

/-- The irrelevance decay factor `Math.max(0.5, Math.pow(0.9, queries.size))`. -/
def irrelevanceFactor (n : ℕ) : ℚ := max (1/2) ((9/10) ^ n)

/-- One step of the dead-link pass of `computePenalties`:
`penaltyMap[url] = 0.1`. -/
def deadStep (pm : List (Str × ℚ)) (e : Str × ℕ) : List (Str × ℚ) :=
  objSet pm e.1 (1/10)

/-- One step of the irrelevance pass of `computePenalties`:
`penaltyMap[url] = Math.min(penaltyMap[url] ?? 1, factor)`. -/
def irrStep (pm : List (Str × ℚ)) (e : Str × List Str) : List (Str × ℚ) :=
  objSet pm e.1 (min ((objGet pm e.1).getD 1) (irrelevanceFactor e.2.length))

/-- `computePenalties()`: dead-linked profiles get multiplier `0.1`, then each
irrelevance-flagged profile gets `min(penaltyMap[url] ?? 1, factor)`. -/
def computePenalties (reports : List Report) : List (Str × ℚ) :=
  let parts := partitionReports reports
  let afterDead := parts.1.foldl deadStep []
  parts.2.foldl irrStep afterDead

/-- The legacy client-side `cosineSimilarity(a, bOffset)` over the
full-precision embedding array. -/
def clientCosineSimilarity (a : List ℚ) (embeddings : List ℚ) (bOffset : ℕ) : ℚ :=
  accumDot (fun i => a.getD i 0 * embeddings.getD (bOffset + i) 0) EMBED_DIM

/-- The legacy client-side `scoreProfile(idx, geoMultiplier)` of
`src/app.js`: keyword boost is weighted by `0.5` and `rawSemantic` is the
unclamped semantic similarity. -/
def scoreProfileClient (profiles : List Profile) (embeddings : List ℚ)
    (penalties : List (Str × ℚ)) (queryEmbedding : List ℚ)
    (topicWords : List Str) (idx : ℕ) (geoMultiplier : ℚ) : Scored :=
  let p := profiles.getD idx default
  let semantic := clientCosineSimilarity queryEmbedding embeddings (idx * EMBED_DIM)
  let kwBoost := topicKeywordBoost p topicWords
  let penalty := (objGet penalties p.profile_url).getD 1
  { idx := idx
    profile := p
    score := semantic * geoMultiplier * (1 + kwBoost * (1/2)) * penalty
    rawSemantic := semantic
    kwBoost := kwBoost }

/-! Specification-side definitions, written from the words of the claims so
that the code-side definitions above can be compared against them. -/

/-- The score formula as the specification states it:
`semantic * geo_multiplier * (1 + keyword_boost) * penalty`. -/
def specScore (semantic geoMultiplier kwBoost penalty : ℚ) : ℚ :=
  semantic * geoMultiplier * (1 + kwBoost) * penalty

/-- The raw relevance as the specification states it:
`min(1, semantic * (1 + keyword_boost))`. -/
def specRawRelevance (semantic kwBoost : ℚ) : ℚ :=
  min 1 (semantic * (1 + kwBoost))

/-- The keyword boost as the specification states it: the number of topic
words found as substrings of the profile text over the number of topic words,
`0` if there are no topic words. -/
def specKeywordBoost (p : Profile) (topicWords : List Str) : ℚ :=
  if topicWords = [] then 0
  else ((topicWords.filter (fun w => containsSub (profileText p) w)).length : ℚ) /
    (topicWords.length : ℚ)

/-- The semantic similarity of profile `idx`: the embedding similarity, `0`
when no query embedding is supplied. -/
def semanticOf (d : ServerData) (queryEmbedding : Option (List ℚ)) (idx : ℕ) : ℚ :=
  match queryEmbedding with
  | some qv => cosineSimilarityInt8 qv d.embInt8 d.embScales idx
  | none => 0

/-- The feedback multiplier of a profile, `1` when the profile has no entry
in the penalty table. -/
def penaltyOf (d : ServerData) (p : Profile) : ℚ :=
  (objGet d.penalties p.profile_url).getD 1

/-- The dequantization scale as claim C5 states it: `(max - min)/255`, and
`1` when `max == min`. -/
def scaleClaimed (mn mx : ℚ) : ℚ := if mn = mx then 1 else (mx - mn) / 255

/-- The dequantization scale the code actually uses: `(max - min)/255`, and
`1/255` when `max == min` (the range, not the scale, falls back to `1`). -/
def scaleActual (mn mx : ℚ) : ℚ := if mn = mx then 1 / 255 else (mx - mn) / 255

/-- Squared Euclidean norm of the first `EMBED_DIM` components of a query
vector. -/
def queryNormSq (qv : List ℚ) : ℚ :=
  accumDot (fun i => (qv.getD i 0) ^ 2) EMBED_DIM

/-- Squared Euclidean norm of the dequantized stored vector `idx`. -/
def dequantNormSq (embInt8 : List ℤ) (embScales : List ℚ) (idx : ℕ) : ℚ :=
  accumDot (fun i => (dequantAt embInt8 embScales idx i) ^ 2) EMBED_DIM

/-- Number of dead-link reports for `url` (the value built up in the
`deadLinks` object). -/
def countDead (reports : List Report) (url : Str) : ℕ :=
  (reports.filter (fun r => r.report_type == str "dead_link" && r.profile_url == url)).length

/-- Number of irrelevance reports for `url`. -/
def countIrr (reports : List Report) (url : Str) : ℕ :=
  (reports.filter (fun r => r.report_type == str "irrelevant" && r.profile_url == url)).length

/-- The queries flagging `url` as irrelevant, accumulated with set semantics
starting from `init`. -/
def irrAccumFrom (reports : List Report) (url : Str) (init : List Str) : List Str :=
  reports.foldl
    (fun acc r =>
      if r.report_type == str "irrelevant" && r.profile_url == url then
        setAdd acc (r.query.getD []) else acc)
    init

/-- The insertion-ordered set of distinct queries flagging `url` as
irrelevant (the value built up in the `irrelevantQs` object). -/
def distinctIrrQueries (reports : List Report) (url : Str) : List Str :=
  irrAccumFrom reports url []

/-- The keys of an association-list object, in insertion order. -/
def keysOf {α : Type} (m : List (Str × α)) : List Str := m.map Prod.fst

/-! Concrete data used by the witnesses and counterexamples. -/

/-- A unit-norm query vector: `e₀`. -/
def exUnitQuery : List ℚ := 1 :: List.replicate 383 0

/-- Stored bytes whose first vector decodes to `(255, 0, …, 0)` under the
scale pair `(0, 255)`. -/
def exWildBytes : List ℤ := (127 : ℤ) :: List.replicate 383 (-128)

/-- Scale pair `min = 0`, `max = 255` for the single stored vector of
`exWildBytes`. -/
def exWildScales : List ℚ := [0, 255]

/-- Stored bytes decoding to the zero vector under the scale pair `(0, 0)`. -/
def exZeroBytes : List ℤ := List.replicate 384 (-128)

/-- Scale pair `min = max = 0`. -/
def exZeroScales : List ℚ := [0, 0]

/-- A profile whose text contains the topic word `solar`. -/
def exSolarProfile : Profile :=
  { profile_url := str "solar-co", name := some (str "Solar Co-op") }

/-- A client-side embedding array whose single vector is `(2, 0, …, 0)`. -/
def exClientEmbeddings : List ℚ := 2 :: List.replicate 383 0

/-- A France-based profile for the geo-tier witnesses. -/
def exFrProfile (url nm desc : String) : Profile :=
  { profile_url := str url
    name := some (str nm)
    description := some (str desc)
    country := some (str "France") }

/-- A corpus of five France-based profiles with distinct description lengths;
the first one mentions solar power. -/
def exFrProfiles : List Profile :=
  [ exFrProfile "u0" "Solar Co-op" "solar power cooperative"
  , exFrProfile "u1" "Org B" "bbbb"
  , exFrProfile "u2" "Org C" "ccc"
  , exFrProfile "u3" "Org D" "cc"
  , exFrProfile "u4" "Org E" "c" ]

/-- Snapshot for the no-embedding witnesses: the France corpus, no embedding
store, no penalties. -/
def exGeoData : ServerData := { profilesMeta := exFrProfiles }

/-- Snapshot for the geo+topic witness: the France corpus with a quantized
store whose vector 0 decodes to `e₀` (scale pair `(0,0)` makes the scale
`1/255`, byte `127` decodes to `1`, byte `-128` to `0`). -/
def exTopicData : ServerData :=
  { profilesMeta := exFrProfiles
    embInt8 := (127 : ℤ) :: List.replicate (5 * 384 - 1) (-128)
    embScales := [0, 0] }

/-- A dead-link report and two irrelevance reports for the penalty
witnesses. -/
def exReports : List Report :=
  [ { profile_url := str "u0", report_type := str "dead_link" }
  , { profile_url := str "u1", report_type := str "irrelevant", query := some (str "q1") }
  , { profile_url := str "u1", report_type := str "irrelevant", query := some (str "q2") } ]

/-! General-purpose lemmas about the building blocks. -/

theorem accumDot_eq_sum (f : ℕ → ℚ) (n : ℕ) :
    accumDot f n = ∑ i ∈ Finset.range n, f i := by
  induction n with
  | zero => simp [accumDot]
  | succ k ih => rw [accumDot, ih, Finset.sum_range_succ]

theorem accumDot_congr {f g : ℕ → ℚ} (h : ∀ i, f i = g i) (n : ℕ) :
    accumDot f n = accumDot g n := by
  induction n with
  | zero => rfl
  | succ k ih => rw [accumDot, accumDot, ih, h]

theorem getD_replicate {α : Type} (x d : α) (n i : ℕ) :
    (List.replicate n x).getD i d = if i < n then x else d := by
  induction n generalizing i with
  | zero => simp
  | succ k ih =>
    cases i with
    | zero => simp [List.replicate]
    | succ j =>
      rw [List.replicate, List.getD_cons_succ, ih]
      by_cases h : j < k
      · rw [if_pos h, if_pos (Nat.succ_lt_succ h)]
      · rw [if_neg h, if_neg (fun hc => h (Nat.lt_of_succ_lt_succ hc))]

theorem getD_cons_replicate {α : Type} (a x d : α) (n i : ℕ) :
    ((a :: List.replicate n x).getD i d) = if i = 0 then a else if i ≤ n then x else d := by
  cases i with
  | zero => simp
  | succ j =>
    rw [List.getD_cons_succ, getD_replicate, if_neg (Nat.succ_ne_zero j)]
    by_cases h : j < n
    · rw [if_pos h, if_pos (Nat.succ_le_of_lt h)]
    · rw [if_neg h, if_neg (fun hc => h (Nat.lt_of_succ_le hc))]

theorem insertScored_perm (x : Scored) (l : List Scored) :
    List.Perm (insertScored x l) (x :: l) := by
  induction l with
  | nil => rfl
  | cons y ys ih =>
    by_cases h : y.score ≤ x.score
    · simp [insertScored, h]
    · simp only [insertScored, if_neg h]
      exact (ih.cons y).trans (List.Perm.swap x y ys)

theorem sortScored_perm (l : List Scored) : List.Perm (sortScored l) l := by
  induction l with
  | nil => rfl
  | cons x xs ih => exact (insertScored_perm x (sortScored xs)).trans (ih.cons x)

theorem mem_sortScored {a : Scored} {l : List Scored} : a ∈ sortScored l ↔ a ∈ l :=
  (sortScored_perm l).mem_iff

theorem length_sortScored (l : List Scored) : (sortScored l).length = l.length :=
  (sortScored_perm l).length_eq

theorem insertScored_pairwise (x : Scored) (l : List Scored)
    (h : l.Pairwise (fun a b => b.score ≤ a.score)) :
    (insertScored x l).Pairwise (fun a b => b.score ≤ a.score) := by
  induction l with
  | nil => simp [insertScored]
  | cons y ys ih =>
    rw [List.pairwise_cons] at h
    by_cases hc : y.score ≤ x.score
    · simp only [insertScored, if_pos hc]
      refine List.Pairwise.cons ?_ (List.Pairwise.cons h.1 h.2)
      intro z hz
      rcases List.mem_cons.mp hz with rfl | hz
      · exact hc
      · exact le_trans (h.1 z hz) hc
    · simp only [insertScored, if_neg hc]
      refine List.Pairwise.cons ?_ (ih h.2)
      intro z hz
      rcases List.mem_cons.mp ((insertScored_perm x ys).mem_iff.mp hz) with rfl | hz'
      · exact le_of_lt (lt_of_not_le hc)
      · exact h.1 z hz'

theorem sortScored_pairwise (l : List Scored) :
    (sortScored l).Pairwise (fun a b => b.score ≤ a.score) := by
  induction l with
  | nil => simp [sortScored]
  | cons x xs ih => exact insertScored_pairwise x (sortScored xs) ih

theorem mem_foldl_setAdd {x : Str} (l : List Str) (acc : List Str) :
    x ∈ l.foldl setAdd acc ↔ x ∈ acc ∨ x ∈ l := by
  induction l generalizing acc with
  | nil => simp
  | cons y ys ih =>
    rw [List.foldl_cons, ih]
    unfold setAdd
    by_cases h : y ∈ acc
    · simp only [if_pos h, List.mem_cons]
      constructor
      · rintro (hx | hx)
        · exact Or.inl hx
        · exact Or.inr (Or.inr hx)
      · rintro (hx | rfl | hx)
        · exact Or.inl hx
        · exact Or.inl h
        · exact Or.inr hx
    · simp only [if_neg h, List.mem_append, List.mem_singleton, List.mem_cons]
      tauto

theorem mem_dedupList {x : Str} (l : List Str) : x ∈ dedupList l ↔ x ∈ l := by
  unfold dedupList
  rw [mem_foldl_setAdd]
  simp

theorem startsWithStr_correct (h n : Str) :
    startsWithStr h n = true ↔ n <+: h := by
  induction n generalizing h with
  | nil => simp [startsWithStr, List.nil_prefix]
  | cons d ds ih =>
    cases h with
    | nil =>
      simp only [startsWithStr, Bool.false_eq_true, false_iff]
      intro hc
      simpa using hc.length_le
    | cons c cs =>
      simp only [startsWithStr, Bool.and_eq_true, beq_iff_eq, ih]
      constructor
      · rintro ⟨rfl, hp⟩
        rcases hp with ⟨t, ht⟩
        exact ⟨t, by rw [List.cons_append, ht]⟩
      · intro hp
        rcases hp with ⟨t, ht⟩
        injection ht with h1 h2
        exact ⟨h1.symm, ⟨t, h2⟩⟩

theorem containsSub_correct (h n : Str) :
    containsSub h n = true ↔ n <:+: h := by
  induction h with
  | nil =>
    cases n with
    | nil => simp [containsSub, startsWithStr, List.infix_refl]
    | cons d ds =>
      simp only [containsSub, startsWithStr, Bool.false_eq_true, if_false, false_iff]
      intro hc
      simpa using hc.length_le
  | cons c cs ih =>
    rw [containsSub]
    by_cases hs : startsWithStr (c :: cs) n = true
    · simp only [if_pos hs, true_iff]
      exact ((startsWithStr_correct _ n).mp hs).isInfix
    · simp only [if_neg hs, ih]
      constructor
      · intro hi
        rcases hi with ⟨s, t, hst⟩
        exact ⟨c :: s, t, by rw [← hst]; simp⟩
      · intro hi
        rcases hi with ⟨s, t, hst⟩
        cases s with
        | nil =>
          exact absurd ((startsWithStr_correct (c :: cs) n).mpr ⟨t, by simpa using hst⟩) hs
        | cons a as =>
          injection hst with h1 h2
          exact ⟨as, t, h2⟩

theorem joinSep_cons_cons (sep p q : Str) (qs : List Str) :
    joinSep sep (p :: q :: qs) = p ++ sep ++ joinSep sep (q :: qs) := rfl

theorem mem_infix_joinSep (sep : Str) (parts : List Str) (x : Str) (hx : x ∈ parts) :
    x <:+: joinSep sep parts := by
  induction parts with
  | nil => cases hx
  | cons p rest ih =>
    rcases List.mem_cons.mp hx with rfl | hx'
    · cases rest with
      | nil => exact List.infix_refl x
      | cons q qs =>
        rw [joinSep_cons_cons]
        exact ⟨[], sep ++ joinSep sep (q :: qs), by simp⟩
    · cases rest with
      | nil => cases hx'
      | cons q qs =>
        rw [joinSep_cons_cons]
        rcases ih hx' with ⟨s, t, hst⟩
        exact ⟨p ++ sep ++ s, t, by rw [← hst]; simp⟩

theorem containsSub_of_infix {h n : Str} (hi : n <:+: h) : containsSub h n = true :=
  (containsSub_correct h n).mpr hi

theorem topicMatchCount_eq_filter (p : Profile) (tw : List Str) :
    topicMatchCount p tw = (tw.filter (fun w => containsSub (profileText p) w)).length := by
  unfold topicMatchCount
  have key : ∀ (l : List Str) (acc : ℕ),
      l.foldl (fun m w => if containsSub (profileText p) w then m + 1 else m) acc =
        acc + (l.filter (fun w => containsSub (profileText p) w)).length := by
    intro l
    induction l with
    | nil => simp
    | cons w ws ih =>
      intro acc
      rw [List.foldl_cons, ih]
      simp only [List.filter_cons]
      by_cases hw : containsSub (profileText p) w = true
      · simp only [if_pos hw, List.length_cons]
        omega
      · simp only [if_neg hw]
  simpa using key tw 0

theorem topicKeywordBoost_eq_spec (p : Profile) (tw : List Str) :
    topicKeywordBoost p tw = specKeywordBoost p tw := by
  unfold topicKeywordBoost specKeywordBoost
  rw [topicMatchCount_eq_filter]

theorem topicKeywordBoost_pos_iff (p : Profile) (tw : List Str) :
    0 < topicKeywordBoost p tw ↔ ∃ w ∈ tw, containsSub (profileText p) w = true := by
  unfold topicKeywordBoost
  by_cases h : tw = []
  · subst h
    simp
  · rw [if_neg h, topicMatchCount_eq_filter]
    have hden : (0:ℚ) < (tw.length : ℚ) := by
      exact_mod_cast List.length_pos.mpr h
    constructor
    · intro hpos
      have hne : tw.filter (fun w => containsSub (profileText p) w) ≠ [] := by
        intro hnil
        rw [hnil] at hpos
        norm_num at hpos
      rcases List.exists_mem_of_ne_nil _ hne with ⟨w, hw⟩
      rcases List.mem_filter.mp hw with ⟨hw1, hw2⟩
      exact ⟨w, hw1, hw2⟩
    · rintro ⟨w, hw1, hw2⟩
      have hmem : w ∈ tw.filter (fun w => containsSub (profileText p) w) :=
        List.mem_filter.mpr ⟨hw1, hw2⟩
      have hlen : 0 < (tw.filter (fun w => containsSub (profileText p) w)).length :=
        List.length_pos.mpr (fun hnil => by simp [hnil] at hmem)
      exact div_pos (by exact_mod_cast hlen) hden

theorem topicKeywordBoost_nonneg (p : Profile) (tw : List Str) :
    0 ≤ topicKeywordBoost p tw := by
  unfold topicKeywordBoost
  by_cases h : tw = []
  · simp [h]
  · rw [if_neg h]
    positivity

theorem scoreProfile_none (d : ServerData) (tw : List Str) (idx : ℕ) (g : ℚ) :
    (scoreProfile d none tw idx g).score = 0 ∧
      (scoreProfile d none tw idx g).rawSemantic = 0 := by
  unfold scoreProfile
  constructor
  · simp
  · simp [min_eq_right]

theorem strictFiltered_none (d : ServerData) (tw : List Str) (gms : List ℕ) (topK : ℕ) :
    strictFiltered d none tw gms topK = [] := by
  unfold strictFiltered
  rw [List.filter_eq_nil_iff]
  intro r hr
  have hr' : r ∈ scoredGeoSorted d none tw gms := List.mem_of_mem_take hr
  rw [scoredGeoSorted, mem_sortScored] at hr'
  rcases List.mem_map.mp hr' with ⟨idx, _, rfl⟩
  have h0 : (scoreProfile d none tw idx 1).rawSemantic = 0 := (scoreProfile_none d tw idx 1).2
  simp only [h0, Bool.and_eq_true, decide_eq_true_eq, RELEVANCE_THRESHOLD]
  intro hc
  norm_num at hc

theorem search_low_geo (d : ServerData) (qe : Option (List ℚ)) (q : Str) (topK : ℕ)
    (lp : Option LlmParams)
    (h1 : (analyzeQuery (buildLocationIndex d.profilesMeta) q lp).1 ≠ [])
    (h2 : (geoMatchIdxs d (analyzeQuery (buildLocationIndex d.profilesMeta) q lp).1).length <
      GEO_FILTER_MIN) :
    searchProfilesServer d qe q topK lp =
      { results := []
        geoNote := some (geoNoteFor (analyzeQuery (buildLocationIndex d.profilesMeta) q lp).1)
        geoTerms := (analyzeQuery (buildLocationIndex d.profilesMeta) q lp).1
        topicWords := (analyzeQuery (buildLocationIndex d.profilesMeta) q lp).2.1
        queryType := (analyzeQuery (buildLocationIndex d.profilesMeta) q lp).2.2 } := by
  unfold searchProfilesServer
  rw [if_pos (List.length_pos.mpr h1), if_neg (not_le.mpr h2)]

theorem search_tierA (d : ServerData) (qe : Option (List ℚ)) (q : Str) (topK : ℕ)
    (lp : Option LlmParams)
    (h1 : (analyzeQuery (buildLocationIndex d.profilesMeta) q lp).1 ≠ [])
    (htw : (analyzeQuery (buildLocationIndex d.profilesMeta) q lp).2.1 = [])
    (h2 : GEO_FILTER_MIN ≤
      (geoMatchIdxs d (analyzeQuery (buildLocationIndex d.profilesMeta) q lp).1).length) :
    searchProfilesServer d qe q topK lp =
      { results := (geoBrowseSorted d
          (geoMatchIdxs d (analyzeQuery (buildLocationIndex d.profilesMeta) q lp).1)).take
            TOP_K_GEO_BROWSE
        geoNote := none
        geoTerms := (analyzeQuery (buildLocationIndex d.profilesMeta) q lp).1
        topicWords := (analyzeQuery (buildLocationIndex d.profilesMeta) q lp).2.1
        queryType := (analyzeQuery (buildLocationIndex d.profilesMeta) q lp).2.2
        totalGeoMatches := some (geoBrowseSorted d
          (geoMatchIdxs d (analyzeQuery (buildLocationIndex d.profilesMeta) q lp).1)).length } := by
  unfold searchProfilesServer
  rw [if_pos (List.length_pos.mpr h1), if_pos h2, if_pos (by simp [htw])]

theorem search_tierB_fallback (d : ServerData) (qe : Option (List ℚ)) (q : Str) (topK : ℕ)
    (lp : Option LlmParams)
    (h1 : (analyzeQuery (buildLocationIndex d.profilesMeta) q lp).1 ≠ [])
    (htw : (analyzeQuery (buildLocationIndex d.profilesMeta) q lp).2.1 ≠ [])
    (h2 : GEO_FILTER_MIN ≤
      (geoMatchIdxs d (analyzeQuery (buildLocationIndex d.profilesMeta) q lp).1).length)
    (h3 : strictFiltered d qe (analyzeQuery (buildLocationIndex d.profilesMeta) q lp).2.1
      (geoMatchIdxs d (analyzeQuery (buildLocationIndex d.profilesMeta) q lp).1) topK = []) :
    searchProfilesServer d qe q topK lp =
      { results := (geoBrowseSorted d
          (geoMatchIdxs d (analyzeQuery (buildLocationIndex d.profilesMeta) q lp).1)).take
            TOP_K_GEO_BROWSE
        geoNote := none
        geoTerms := (analyzeQuery (buildLocationIndex d.profilesMeta) q lp).1
        topicWords := (analyzeQuery (buildLocationIndex d.profilesMeta) q lp).2.1
        queryType := str "geo+topic-fallback"
        totalGeoMatches := some (geoBrowseSorted d
          (geoMatchIdxs d (analyzeQuery (buildLocationIndex d.profilesMeta) q lp).1)).length
        originalTopicWords :=
          some (analyzeQuery (buildLocationIndex d.profilesMeta) q lp).2.1 } := by
  unfold searchProfilesServer
  rw [if_pos (List.length_pos.mpr h1), if_pos h2,
    if_neg (not_not_intro (List.length_pos.mpr htw)), if_pos h3]

theorem search_tierB_strict (d : ServerData) (qe : Option (List ℚ)) (q : Str) (topK : ℕ)
    (lp : Option LlmParams)
    (h1 : (analyzeQuery (buildLocationIndex d.profilesMeta) q lp).1 ≠ [])
    (htw : (analyzeQuery (buildLocationIndex d.profilesMeta) q lp).2.1 ≠ [])
    (h2 : GEO_FILTER_MIN ≤
      (geoMatchIdxs d (analyzeQuery (buildLocationIndex d.profilesMeta) q lp).1).length)
    (h3 : strictFiltered d qe (analyzeQuery (buildLocationIndex d.profilesMeta) q lp).2.1
      (geoMatchIdxs d (analyzeQuery (buildLocationIndex d.profilesMeta) q lp).1) topK ≠ []) :
    searchProfilesServer d qe q topK lp =
      { results := strictFiltered d qe
          (analyzeQuery (buildLocationIndex d.profilesMeta) q lp).2.1
          (geoMatchIdxs d (analyzeQuery (buildLocationIndex d.profilesMeta) q lp).1) topK
        geoNote := none
        geoTerms := (analyzeQuery (buildLocationIndex d.profilesMeta) q lp).1
        topicWords := (analyzeQuery (buildLocationIndex d.profilesMeta) q lp).2.1
        queryType := (analyzeQuery (buildLocationIndex d.profilesMeta) q lp).2.2 } := by
  unfold searchProfilesServer
  rw [if_pos (List.length_pos.mpr h1), if_pos h2,
    if_neg (not_not_intro (List.length_pos.mpr htw)), if_neg h3]

theorem search_topic_only (d : ServerData) (qe : Option (List ℚ)) (q : Str) (topK : ℕ)
    (lp : Option LlmParams)
    (h1 : (analyzeQuery (buildLocationIndex d.profilesMeta) q lp).1 = []) :
    searchProfilesServer d qe q topK lp =
      { results := topicFiltered d qe
          (analyzeQuery (buildLocationIndex d.profilesMeta) q lp).2.1 topK
        geoNote := none
        geoTerms := (analyzeQuery (buildLocationIndex d.profilesMeta) q lp).1
        topicWords := (analyzeQuery (buildLocationIndex d.profilesMeta) q lp).2.1
        queryType := (analyzeQuery (buildLocationIndex d.profilesMeta) q lp).2.2
        totalTopicMatches :=
          if (analyzeQuery (buildLocationIndex d.profilesMeta) q lp).2.1.length > 0 then
            some (totalTopicMatchCount d
              (analyzeQuery (buildLocationIndex d.profilesMeta) q lp).2.1)
          else none } := by
  unfold searchProfilesServer
  rw [if_neg (by simp [h1])]

theorem mem_geoBrowse_facts (d : ServerData) (gms : List ℕ) (k : ℕ) (r : Scored)
    (hr : r ∈ (geoBrowseSorted d gms).take k) :
    r.rawSemantic = 0 ∧ r.kwBoost = 0 ∧
      r.score = ((r.profile.description.getD []).length : ℚ) := by
  have hr' : r ∈ geoBrowseSorted d gms := List.mem_of_mem_take hr
  rw [geoBrowseSorted, mem_sortScored] at hr'
  rcases List.mem_map.mp hr' with ⟨idx, _, rfl⟩
  exact ⟨rfl, rfl, rfl⟩

theorem geoBrowse_take_ne_nil (d : ServerData) (gms : List ℕ)
    (h : GEO_FILTER_MIN ≤ gms.length) :
    (geoBrowseSorted d gms).take TOP_K_GEO_BROWSE ≠ [] := by
  have hlen : (geoBrowseSorted d gms).length = gms.length := by
    rw [geoBrowseSorted, length_sortScored, List.length_map]
  refine (List.length_pos.mp ?_)
  rw [List.length_take, hlen]
  have : 0 < gms.length := lt_of_lt_of_le (by norm_num [GEO_FILTER_MIN]) h
  simp only [lt_min_iff]
  exact ⟨by norm_num [TOP_K_GEO_BROWSE], this⟩

theorem geoNoteFor_ne_nil (gts : List Str) : geoNoteFor gts ≠ [] := by
  intro hc
  unfold geoNoteFor at hc
  have h1 := (List.append_eq_nil.mp hc).1
  have h2 := (List.append_eq_nil.mp h1).1
  have : str "No results found matching that location. Searched: " ≠ [] := by decide
  exact this h2

/-- Claim C2: for every query whose extracted geo-term list is non-empty but
matches fewer than `GEO_FILTER_MIN = 5` profiles, the search returns an empty
result list together with a non-empty note that contains every attempted
location name in title-cased form, and never falls back to scoring or
returning profiles outside the geo filter. -/
theorem C2_low_geo_empty_with_note (d : ServerData) (qe : Option (List ℚ)) (q : Str)
    (topK : ℕ) (lp : Option LlmParams)
    (h1 : (analyzeQuery (buildLocationIndex d.profilesMeta) q lp).1 ≠ [])
    (h2 : (geoMatchIdxs d (analyzeQuery (buildLocationIndex d.profilesMeta) q lp).1).length <
      GEO_FILTER_MIN) :
    (searchProfilesServer d qe q topK lp).results = [] ∧
    (searchProfilesServer d qe q topK lp).geoNote =
      some (geoNoteFor (analyzeQuery (buildLocationIndex d.profilesMeta) q lp).1) ∧
    geoNoteFor (analyzeQuery (buildLocationIndex d.profilesMeta) q lp).1 ≠ [] ∧
    (∀ t ∈ (analyzeQuery (buildLocationIndex d.profilesMeta) q lp).1,
      containsSub (geoNoteFor (analyzeQuery (buildLocationIndex d.profilesMeta) q lp).1)
        (titleCase t) = true) := by
  have hs := search_low_geo d qe q topK lp h1 h2
  refine ⟨by rw [hs], by rw [hs], geoNoteFor_ne_nil _, ?_⟩
  intro t ht
  apply containsSub_of_infix
  have hmem : titleCase t ∈
      (dedupList (analyzeQuery (buildLocationIndex d.profilesMeta) q lp).1).map titleCase :=
    List.mem_map_of_mem titleCase ((mem_dedupList _).mpr ht)
  have hinf := mem_infix_joinSep (str ", ") _ _ hmem
  rcases hinf with ⟨s, u, hsu⟩
  exact ⟨str "No results found matching that location. Searched: " ++ s, u ++ str ".",
    by rw [geoNoteFor, ← hsu]; simp⟩

/-- Claim C3: for every geo+topic query whose geo terms match at least 5
profiles and whose strict filter yields zero results, the search returns the
full geo-browse set (all geo-matched profiles ordered by description length
descending, capped at `TOP_K_GEO_BROWSE = 50`) with classification
`geo+topic-fallback`, and that list is never empty. -/
theorem C3_fallback_full_browse (d : ServerData) (qe : Option (List ℚ)) (q : Str)
    (topK : ℕ) (lp : Option LlmParams)
    (h1 : (analyzeQuery (buildLocationIndex d.profilesMeta) q lp).1 ≠ [])
    (htw : (analyzeQuery (buildLocationIndex d.profilesMeta) q lp).2.1 ≠ [])
    (h2 : GEO_FILTER_MIN ≤
      (geoMatchIdxs d (analyzeQuery (buildLocationIndex d.profilesMeta) q lp).1).length)
    (h3 : strictFiltered d qe (analyzeQuery (buildLocationIndex d.profilesMeta) q lp).2.1
      (geoMatchIdxs d (analyzeQuery (buildLocationIndex d.profilesMeta) q lp).1) topK = []) :
    (searchProfilesServer d qe q topK lp).queryType = str "geo+topic-fallback" ∧
    (searchProfilesServer d qe q topK lp).results =
      (geoBrowseSorted d
        (geoMatchIdxs d (analyzeQuery (buildLocationIndex d.profilesMeta) q lp).1)).take
          TOP_K_GEO_BROWSE ∧
    (searchProfilesServer d qe q topK lp).results ≠ [] ∧
    (searchProfilesServer d qe q topK lp).results.Pairwise (fun a b => b.score ≤ a.score) ∧
    (∀ r ∈ (searchProfilesServer d qe q topK lp).results,
      r.score = ((r.profile.description.getD []).length : ℚ)) := by
  have hs := search_tierB_fallback d qe q topK lp h1 htw h2 h3
  rw [hs]
  refine ⟨rfl, rfl, geoBrowse_take_ne_nil d _ h2, ?_, ?_⟩
  · exact (sortScored_pairwise _).sublist (List.take_sublist _ _)
  · intro r hr
    exact (mem_geoBrowse_facts d _ TOP_K_GEO_BROWSE r hr).2.2

/-- Claim C4: for every geo+topic query whose geo terms match at least 5
profiles and whose strict filter is non-empty, every returned result is drawn
from the `TOP_K_DISPLAY = 20` highest-scoring geo-matched profiles and
satisfies both `rawSemantic ≥ RELEVANCE_THRESHOLD` and `kwBoost > 0`, i.e. at
least one topic word occurs literally in the profile text. -/
theorem C4_strict_tier_guarantees (d : ServerData) (qe : Option (List ℚ)) (q : Str)
    (lp : Option LlmParams)
    (h1 : (analyzeQuery (buildLocationIndex d.profilesMeta) q lp).1 ≠ [])
    (htw : (analyzeQuery (buildLocationIndex d.profilesMeta) q lp).2.1 ≠ [])
    (h2 : GEO_FILTER_MIN ≤
      (geoMatchIdxs d (analyzeQuery (buildLocationIndex d.profilesMeta) q lp).1).length)
    (h3 : strictFiltered d qe (analyzeQuery (buildLocationIndex d.profilesMeta) q lp).2.1
      (geoMatchIdxs d (analyzeQuery (buildLocationIndex d.profilesMeta) q lp).1)
      TOP_K_DISPLAY ≠ []) :
    ∀ r ∈ (searchProfilesServer d qe q TOP_K_DISPLAY lp).results,
      r ∈ (scoredGeoSorted d qe (analyzeQuery (buildLocationIndex d.profilesMeta) q lp).2.1
        (geoMatchIdxs d (analyzeQuery (buildLocationIndex d.profilesMeta) q lp).1)).take
          TOP_K_DISPLAY ∧
      RELEVANCE_THRESHOLD ≤ r.rawSemantic ∧
      0 < r.kwBoost ∧
      ∃ w ∈ (analyzeQuery (buildLocationIndex d.profilesMeta) q lp).2.1,
        containsSub (profileText r.profile) w = true := by
  have hs := search_tierB_strict d qe q TOP_K_DISPLAY lp h1 htw h2 h3
  rw [hs]
  intro r hr
  rw [strictFiltered, List.mem_filter] at hr
  rcases hr with ⟨hmem, hpred⟩
  simp only [Bool.and_eq_true, decide_eq_true_eq] at hpred
  refine ⟨hmem, hpred.1, hpred.2, ?_⟩
  have hmem' : r ∈ scoredGeoSorted d qe
      (analyzeQuery (buildLocationIndex d.profilesMeta) q lp).2.1
      (geoMatchIdxs d (analyzeQuery (buildLocationIndex d.profilesMeta) q lp).1) :=
    List.mem_of_mem_take hmem
  rw [scoredGeoSorted, mem_sortScored] at hmem'
  rcases List.mem_map.mp hmem' with ⟨idx, _, rfl⟩
  exact (topicKeywordBoost_pos_iff _ _).mp hpred.2

/-- Claim C9: when no query embedding is supplied, every profile's semantic
similarity is treated as exactly zero (so its ranking score is zero as well),
and the search still returns a well-defined result list in which every entry
carries zero semantic relevance and is ranked purely by description length
(the geo-browse signal). -/
theorem C9_no_embedding_degrades (d : ServerData) (q : Str) (topK : ℕ)
    (lp : Option LlmParams) :
    (∀ tw idx g, (scoreProfile d none tw idx g).score = 0 ∧
      (scoreProfile d none tw idx g).rawSemantic = 0) ∧
    (∀ r ∈ (searchProfilesServer d none q topK lp).results,
      r.rawSemantic = 0 ∧ r.score = ((r.profile.description.getD []).length : ℚ)) := by
  refine ⟨fun tw idx g => scoreProfile_none d tw idx g, ?_⟩
  by_cases hgeo : (analyzeQuery (buildLocationIndex d.profilesMeta) q lp).1 = []
  · rw [search_topic_only d none q topK lp hgeo]
    intro r hr
    exfalso
    simp only at hr
    rw [topicFiltered, List.mem_filter] at hr
    rcases hr with ⟨hmem, hpred⟩
    have hmem' : r ∈ topicSortedAll d none
        (analyzeQuery (buildLocationIndex d.profilesMeta) q lp).2.1 :=
      List.mem_of_mem_take hmem
    rw [topicSortedAll, mem_sortScored] at hmem'
    rcases List.mem_map.mp hmem' with ⟨idx, _, rfl⟩
    have h0 := (scoreProfile_none d
      (analyzeQuery (buildLocationIndex d.profilesMeta) q lp).2.1 idx 1).2
    rw [Bool.and_eq_true, decide_eq_true_eq, h0, RELEVANCE_THRESHOLD] at hpred
    have := hpred.1
    norm_num at this
  · by_cases h2 : GEO_FILTER_MIN ≤
        (geoMatchIdxs d (analyzeQuery (buildLocationIndex d.profilesMeta) q lp).1).length
    · by_cases htw : (analyzeQuery (buildLocationIndex d.profilesMeta) q lp).2.1 = []
      · rw [search_tierA d none q topK lp hgeo htw h2]
        intro r hr
        simp only at hr
        have hfacts := mem_geoBrowse_facts d _ TOP_K_GEO_BROWSE r hr
        exact ⟨hfacts.1, hfacts.2.2⟩
      · rw [search_tierB_fallback d none q topK lp hgeo htw h2 (strictFiltered_none d _ _ topK)]
        intro r hr
        simp only at hr
        have hfacts := mem_geoBrowse_facts d _ TOP_K_GEO_BROWSE r hr
        exact ⟨hfacts.1, hfacts.2.2⟩
    · rw [search_low_geo d none q topK lp hgeo (not_le.mp h2)]
      intro r hr
      simp at hr

theorem accumDot_single (f : ℕ → ℚ) (n : ℕ) (hn : 0 < n) (h : ∀ i, i ≠ 0 → f i = 0) :
    accumDot f n = f 0 := by
  rw [accumDot_eq_sum]
  exact Finset.sum_eq_single 0 (fun b _ hb => h b hb)
    (fun h0 => absurd (Finset.mem_range.mpr hn) h0)

theorem getD_e0 (a : ℚ) (m i : ℕ) (hi : i ≠ 0) :
    (a :: List.replicate m (0:ℚ)).getD i 0 = 0 := by
  rw [getD_cons_replicate, if_neg hi]
  split <;> rfl

theorem clientCosine_e0 (a : ℚ) (m : ℕ) (emb : List ℚ) :
    clientCosineSimilarity (a :: List.replicate m 0) emb 0 = a * emb.getD 0 0 := by
  unfold clientCosineSimilarity
  rw [accumDot_single _ EMBED_DIM (by norm_num [EMBED_DIM])
    (fun i hi => by rw [getD_e0 a m i hi, zero_mul])]
  simp

theorem cosineInt8_e0 (a : ℚ) (m : ℕ) (bytes : List ℤ) (scales : List ℚ) (idx : ℕ) :
    cosineSimilarityInt8 (a :: List.replicate m 0) bytes scales idx =
      a * dequantAt bytes scales idx 0 := by
  unfold cosineSimilarityInt8
  rw [accumDot_single _ EMBED_DIM (by norm_num [EMBED_DIM])
    (fun i hi => by rw [getD_e0 a m i hi, zero_mul])]
  simp

theorem queryNormSq_e0 (a : ℚ) (m : ℕ) :
    queryNormSq (a :: List.replicate m 0) = a ^ 2 := by
  unfold queryNormSq
  rw [accumDot_single _ EMBED_DIM (by norm_num [EMBED_DIM])
    (fun i hi => by rw [getD_e0 a m i hi]; norm_num)]
  simp

theorem specKeywordBoost_solar : specKeywordBoost exSolarProfile [str "solar"] = 1 := by
  unfold specKeywordBoost
  rw [if_neg (by decide)]
  have hf : ([str "solar"].filter
      (fun w => containsSub (profileText exSolarProfile) w)) = [str "solar"] := by decide
  rw [hf]
  norm_num

/-- Claim C1, corrected: the claimed formulas hold verbatim for the
server-side `scoreProfile`: the ranking score is
`semantic * geoMultiplier * (1 + keyword_boost) * penalty` and the reported
raw relevance is `min(1, semantic * (1 + keyword_boost))`, with the semantic
similarity treated as `0` when no query embedding is supplied and the penalty
defaulting to `1` when the profile has no entry in the penalty table.  (The
legacy client-side scorer does not satisfy the claimed formulas, see the
counterexample.) -/
theorem C1_server_score_formula (d : ServerData) (qe : Option (List ℚ)) (tw : List Str)
    (idx : ℕ) (g : ℚ) :
    (scoreProfile d qe tw idx g).score =
      specScore (semanticOf d qe idx) g
        (specKeywordBoost (d.profilesMeta.getD idx default) tw)
        (penaltyOf d (d.profilesMeta.getD idx default)) ∧
    (scoreProfile d qe tw idx g).rawSemantic =
      specRawRelevance (semanticOf d qe idx)
        (specKeywordBoost (d.profilesMeta.getD idx default) tw) ∧
    semanticOf d none idx = 0 ∧
    (objGet d.penalties (d.profilesMeta.getD idx default).profile_url = none →
      penaltyOf d (d.profilesMeta.getD idx default) = 1) := by
  refine ⟨?_, ?_, rfl, ?_⟩
  · simp only [scoreProfile, specScore, semanticOf, penaltyOf]
    rw [topicKeywordBoost_eq_spec, mul_one]
  · simp only [scoreProfile, specRawRelevance, semanticOf]
    rw [topicKeywordBoost_eq_spec, mul_one]
  · intro h
    unfold penaltyOf
    rw [h]
    rfl

/-- Claim C1 fails as stated on the legacy client-side scorer of
`src/app.js`: at this concrete input its ranking score is
`semantic * 1 * (1 + keyword_boost * 0.5) * penalty = 3`, not the claimed
`semantic * 1 * (1 + keyword_boost) * penalty = 4`, and its reported raw
relevance is the unclamped semantic similarity `2`, not
`min(1, semantic * (1 + keyword_boost)) = 1`. -/
theorem C1_client_counterexample :
    ¬((scoreProfileClient [exSolarProfile] exClientEmbeddings [] exUnitQuery
        [str "solar"] 0 1).score =
      specScore (clientCosineSimilarity exUnitQuery exClientEmbeddings (0 * EMBED_DIM)) 1
        (specKeywordBoost exSolarProfile [str "solar"]) 1 ∧
      (scoreProfileClient [exSolarProfile] exClientEmbeddings [] exUnitQuery
        [str "solar"] 0 1).rawSemantic =
      specRawRelevance (clientCosineSimilarity exUnitQuery exClientEmbeddings (0 * EMBED_DIM))
        (specKeywordBoost exSolarProfile [str "solar"])) := by
  have hsem : clientCosineSimilarity exUnitQuery exClientEmbeddings (0 * EMBED_DIM) = 2 := by
    rw [Nat.zero_mul]
    unfold exUnitQuery
    rw [clientCosine_e0]
    unfold exClientEmbeddings
    norm_num
  have hp : ([exSolarProfile].getD 0 default) = exSolarProfile := rfl
  have hkb : topicKeywordBoost exSolarProfile [str "solar"] = 1 := by
    rw [topicKeywordBoost_eq_spec, specKeywordBoost_solar]
  rintro ⟨hsc, _⟩
  unfold scoreProfileClient at hsc
  rw [hsem, specKeywordBoost_solar, specScore] at hsc
  simp only [hp, hkb, objGet] at hsc
  norm_num at hsc

/-- Witness for `C1_server_score_formula` at a concrete input, discharging
the no-penalty-entry hypothesis of its final conjunct. -/
theorem C1_server_score_formula_witness :
    (scoreProfile exGeoData none [] 0 1).score =
      specScore (semanticOf exGeoData none 0) 1
        (specKeywordBoost (exGeoData.profilesMeta.getD 0 default) [])
        (penaltyOf exGeoData (exGeoData.profilesMeta.getD 0 default)) ∧
    penaltyOf exGeoData (exGeoData.profilesMeta.getD 0 default) = 1 :=
  ⟨(C1_server_score_formula exGeoData none [] 0 1).1,
    (C1_server_score_formula exGeoData none [] 0 1).2.2.2 (by decide)⟩

/-- Claim C5, corrected: every dequantized component equals
`(byte + 128) * scale + min`, where `scale = (max - min)/255` when
`max ≠ min` and `scale = 1/255` (not `1`) when `max == min`, because the code
clamps the *range* `max - min` to `1` before dividing by 255; the whole
similarity is the dot product against exactly these decoded values. -/
theorem C5_dequant_formula (qv : List ℚ) (bytes : List ℤ) (scales : List ℚ) (idx i : ℕ) :
    dequantAt bytes scales idx i =
      ((bytes.getD (idx * EMBED_DIM + i) 0 : ℚ) + 128) *
        scaleActual (scales.getD (idx * 2) 0) (scales.getD (idx * 2 + 1) 0) +
        scales.getD (idx * 2) 0 ∧
    cosineSimilarityInt8 qv bytes scales idx =
      accumDot (fun j => qv.getD j 0 *
        (((bytes.getD (idx * EMBED_DIM + j) 0 : ℚ) + 128) *
          scaleActual (scales.getD (idx * 2) 0) (scales.getD (idx * 2 + 1) 0) +
          scales.getD (idx * 2) 0)) EMBED_DIM := by
  have hpt : ∀ j, dequantAt bytes scales idx j =
      ((bytes.getD (idx * EMBED_DIM + j) 0 : ℚ) + 128) *
        scaleActual (scales.getD (idx * 2) 0) (scales.getD (idx * 2 + 1) 0) +
        scales.getD (idx * 2) 0 := by
    intro j
    simp only [dequantAt, scaleActual]
    by_cases h : scales.getD (idx * 2 + 1) 0 - scales.getD (idx * 2) 0 = 0
    · rw [if_pos h, if_pos (sub_eq_zero.mp h).symm]
    · rw [if_neg h, if_neg (fun hc => h (by rw [hc, sub_self]))]
  exact ⟨hpt i, accumDot_congr (fun j => by rw [hpt j]) EMBED_DIM⟩

/-- Claim C5 fails as stated: with `min = max = 0` the code's scale is
`1/255`, so byte `127` decodes to `1`, not to the claimed
`(127 + 128) * 1 + 0 = 255`. -/
theorem C5_scale_counterexample :
    dequantAt [(127:ℤ)] [0, 0] 0 0 ≠ ((127:ℚ) + 128) * scaleClaimed 0 0 + 0 := by
  norm_num [dequantAt, scaleClaimed, EMBED_DIM, List.getD_cons_zero, List.getD_cons_succ]

theorem dequantNormSq_zero : dequantNormSq exZeroBytes exZeroScales 0 = 0 := by
  rw [dequantNormSq, accumDot_eq_sum]
  apply Finset.sum_eq_zero
  intro i hi
  have hi' : i < 384 := by
    have := Finset.mem_range.mp hi
    simpa [EMBED_DIM] using this
  have hbyte : exZeroBytes.getD (0 * EMBED_DIM + i) 0 = -128 := by
    rw [exZeroBytes, getD_replicate, if_pos (by omega)]
  simp only [dequantAt, hbyte, exZeroScales]
  norm_num

/-- Claim C6, corrected: the approximate dot product lies in `[-1, 1]`
whenever the query vector and the dequantized stored vector both have squared
norm at most `1` (in particular for unit vectors); without the condition on
the stored side the value can exceed `1` (see the counterexample). -/
theorem C6_similarity_bounded (qv : List ℚ) (bytes : List ℤ) (scales : List ℚ) (idx : ℕ)
    (hq : queryNormSq qv ≤ 1) (hd : dequantNormSq bytes scales idx ≤ 1) :
    -1 ≤ cosineSimilarityInt8 qv bytes scales idx ∧
      cosineSimilarityInt8 qv bytes scales idx ≤ 1 := by
  rw [queryNormSq, accumDot_eq_sum] at hq
  rw [dequantNormSq, accumDot_eq_sum] at hd
  have hq0 : (0:ℚ) ≤ ∑ i ∈ Finset.range EMBED_DIM, (qv.getD i 0) ^ 2 := by positivity
  have key : (cosineSimilarityInt8 qv bytes scales idx) ^ 2 ≤ 1 := by
    rw [cosineSimilarityInt8, accumDot_eq_sum]
    calc (∑ i ∈ Finset.range EMBED_DIM, qv.getD i 0 * dequantAt bytes scales idx i) ^ 2
        ≤ (∑ i ∈ Finset.range EMBED_DIM, (qv.getD i 0) ^ 2) *
            ∑ i ∈ Finset.range EMBED_DIM, (dequantAt bytes scales idx i) ^ 2 :=
          Finset.sum_mul_sq_le_sq_mul_sq _ _ _
      _ ≤ 1 * 1 := mul_le_mul hq hd (by positivity) (le_trans hq0 hq)
      _ = 1 := one_mul 1
  have habs := (sq_le_one_iff_abs_le_one _).mp key
  exact abs_le.mp habs

/-- Claim C6 fails as stated: for the unit-norm query `e₀` and a stored
vector whose scale pair is `(0, 255)`, the returned similarity is `255`,
far outside `[-1, 1]`. -/
theorem C6_unbounded_counterexample :
    queryNormSq exUnitQuery = 1 ∧
      1 < cosineSimilarityInt8 exUnitQuery exWildBytes exWildScales 0 := by
  constructor
  · rw [exUnitQuery, queryNormSq_e0]
    norm_num
  · rw [exUnitQuery, cosineInt8_e0]
    norm_num [dequantAt, exWildBytes, exWildScales, EMBED_DIM,
      List.getD_cons_zero, List.getD_cons_succ]

/-- Witness for `C6_similarity_bounded`: the unit query `e₀` against a stored
vector decoding to the zero vector. -/
theorem C6_similarity_bounded_witness :
    (queryNormSq exUnitQuery ≤ 1 ∧ dequantNormSq exZeroBytes exZeroScales 0 ≤ 1) ∧
      (-1 ≤ cosineSimilarityInt8 exUnitQuery exZeroBytes exZeroScales 0 ∧
        cosineSimilarityInt8 exUnitQuery exZeroBytes exZeroScales 0 ≤ 1) := by
  have hq : queryNormSq exUnitQuery ≤ 1 := by
    rw [exUnitQuery, queryNormSq_e0]
    norm_num
  have hd : dequantNormSq exZeroBytes exZeroScales 0 ≤ 1 := by
    rw [dequantNormSq_zero]
    norm_num
  exact ⟨⟨hq, hd⟩, C6_similarity_bounded exUnitQuery exZeroBytes exZeroScales 0 hq hd⟩

theorem contains_true_iff (l : List Str) (a : Str) : l.contains a = true ↔ a ∈ l := by
  simp

theorem foldl_guarded_nodup (step : List Str → Str → List Str)
    (hstep : ∀ acc x, step acc x = acc ∨ (x ∉ acc ∧ step acc x = acc ++ [x]))
    (l : List Str) (acc : List Str) (h : acc.Nodup) : (l.foldl step acc).Nodup := by
  induction l generalizing acc with
  | nil => exact h
  | cons y ys ih =>
    rw [List.foldl_cons]
    apply ih
    rcases hstep acc y with heq | ⟨hy, heq⟩
    · rw [heq]; exact h
    · rw [heq, List.nodup_append]
      exact ⟨h, List.nodup_singleton y, fun a ha hay => hy (by
        rcases List.mem_singleton.mp hay with rfl
        exact ha)⟩

theorem wordStep_guarded (kl matched : List Str) :
    ∀ acc x, wordStep kl matched acc x = acc ∨
      (x ∉ acc ∧ wordStep kl matched acc x = acc ++ [x]) := by
  intro acc x
  unfold wordStep
  by_cases h1 : acc.contains x || matched.contains x
  · left
    rw [if_pos h1]
  · rw [if_neg h1]
    by_cases h2 : kl.contains x
    · right
      refine ⟨?_, by rw [if_pos h2]⟩
      intro hx
      exact h1 (by rw [Bool.or_eq_true]; exact Or.inl ((contains_true_iff acc x).mpr hx))
    · left
      rw [if_neg h2]

theorem windowStep_guarded (kl : List Str) :
    ∀ acc x, windowStep kl acc x = acc ∨
      (x ∉ acc ∧ windowStep kl acc x = acc ++ [x]) := by
  intro acc x
  unfold windowStep
  by_cases h1 : !(acc.contains x) && kl.contains x
  · right
    refine ⟨?_, by rw [if_pos h1]⟩
    intro hx
    have hmem := (contains_true_iff acc x).mpr hx
    rw [Bool.and_eq_true, Bool.not_eq_true'] at h1
    rw [h1.1] at hmem
    exact Bool.false_ne_true hmem
  · left
    rw [if_neg h1]

/-- Claim C10, corrected: `extractGeoTerms` is deduplicated only past the
alias stage — the single-word, pair and triple Location-Index scans append a
term only when it is not already present, so they preserve freedom from
duplicates; but overlapping alias expansions are pushed unconditionally, so
the full output is duplicate-free only when the alias stage's output is. -/
theorem C10_dedup_amended (kl : List Str) (q : Str)
    (h : (aliasStage (stripApos (lowerStr q))).1.Nodup) :
    (extractGeoTerms kl q).Nodup := by
  unfold extractGeoTerms
  apply foldl_guarded_nodup _ (windowStep_guarded kl)
  apply foldl_guarded_nodup _ (windowStep_guarded kl)
  apply foldl_guarded_nodup _ (wordStep_guarded kl _)
  exact h

/-- Claim C10 fails as stated: for the query `uk britain` both the alias keys
`britain` and `uk` match, their expansions overlap, and the extracted geo-term
list contains `england` (and several other tokens) twice. -/
theorem C10_duplicates_counterexample :
    ¬ (extractGeoTerms [] (str "uk britain")).Nodup := by decide

/-- Witness for `C10_dedup_amended`: for the query `solar france` the alias
stage emits the duplicate-free `[france, fr, frankreich]`, so the whole
extraction is duplicate-free. -/
theorem C10_dedup_amended_witness :
    (aliasStage (stripApos (lowerStr (str "solar france")))).1.Nodup ∧
      (extractGeoTerms [] (str "solar france")).Nodup :=
  ⟨by decide, C10_dedup_amended [] (str "solar france") (by decide)⟩

theorem objGet_objSet {α : Type} (m : List (Str × α)) (k : Str) (v : α) (k' : Str) :
    objGet (objSet m k v) k' = if k' = k then some v else objGet m k' := by
  induction m with
  | nil =>
    by_cases h : k' = k
    · subst h
      simp [objSet, objGet]
    · simp [objSet, objGet, beq_iff_eq, h, Ne.symm h]
  | cons e rest ih =>
    by_cases he : e.1 = k
    · subst he
      rw [objSet, if_pos (by simp)]
      by_cases h : k' = e.1
      · subst h
        simp [objGet]
      · have hne : ¬ e.1 = k' := fun hc => h hc.symm
        simp [objGet, beq_iff_eq, h, hne]
    · rw [objSet, if_neg (by simp [beq_iff_eq, he])]
      by_cases hek' : e.1 = k'
      · have h : ¬ k' = k := fun hc => he (by rw [hek', hc])
        simp [objGet, beq_iff_eq, hek', h]
      · simp [objGet, beq_iff_eq, hek', ih]

theorem objGet_eq_none_iff {α : Type} (m : List (Str × α)) (k : Str) :
    objGet m k = none ↔ k ∉ keysOf m := by
  induction m with
  | nil => simp [objGet, keysOf]
  | cons e rest ih =>
    by_cases he : e.1 = k
    · subst he
      rw [objGet, if_pos (by simp)]
      constructor
      · intro hc
        cases hc
      · intro hc
        exact absurd (List.mem_map_of_mem Prod.fst (List.mem_cons_self e rest)) hc
    · rw [objGet, if_neg (by simp [beq_iff_eq, he])]
      rw [ih]
      simp only [keysOf, List.map_cons, List.mem_cons, not_or]
      constructor
      · intro hk
        exact ⟨fun hc => he hc.symm, hk⟩
      · intro hk
        exact hk.2

theorem keysOf_objSet {α : Type} (m : List (Str × α)) (k : Str) (v : α) :
    keysOf (objSet m k v) = if k ∈ keysOf m then keysOf m else keysOf m ++ [k] := by
  induction m with
  | nil => simp [objSet, keysOf]
  | cons e rest ih =>
    by_cases he : e.1 = k
    · subst he
      rw [objSet, if_pos (by simp)]
      rw [if_pos (show e.1 ∈ keysOf (e :: rest) from
        List.mem_map_of_mem Prod.fst (List.mem_cons_self e rest))]
      simp [keysOf]
    · rw [objSet, if_neg (by simp [beq_iff_eq, he])]
      simp only [keysOf, List.map_cons] at ih ⊢
      rw [ih]
      by_cases hk : k ∈ List.map Prod.fst rest
      · rw [if_pos hk, if_pos (List.mem_cons_of_mem _ hk)]
      · rw [if_neg hk, if_neg ?_]
        · simp
        · intro hc
          rcases List.mem_cons.mp hc with hc1 | hc2
          · exact he hc1.symm
          · exact hk hc2

theorem nodup_keysOf_objSet {α : Type} (m : List (Str × α)) (k : Str) (v : α)
    (h : (keysOf m).Nodup) : (keysOf (objSet m k v)).Nodup := by
  rw [keysOf_objSet]
  by_cases hk : k ∈ keysOf m
  · rw [if_pos hk]
    exact h
  · rw [if_neg hk, List.nodup_append]
    refine ⟨h, List.nodup_singleton k, fun a ha hak => hk ?_⟩
    rcases List.mem_singleton.mp hak with rfl
    exact ha

theorem countDead_cons (r : Report) (rs : List Report) (url : Str) :
    countDead (r :: rs) url =
      (if (r.report_type == str "dead_link" && r.profile_url == url) = true then 1 else 0) +
        countDead rs url := by
  unfold countDead
  rw [List.filter_cons]
  by_cases h : (r.report_type == str "dead_link" && r.profile_url == url) = true
  · rw [if_pos h, if_pos h, List.length_cons, Nat.add_comm]
  · rw [if_neg h, if_neg h, Nat.zero_add]

theorem countIrr_cons (r : Report) (rs : List Report) (url : Str) :
    countIrr (r :: rs) url =
      (if (r.report_type == str "irrelevant" && r.profile_url == url) = true then 1 else 0) +
        countIrr rs url := by
  unfold countIrr
  rw [List.filter_cons]
  by_cases h : (r.report_type == str "irrelevant" && r.profile_url == url) = true
  · rw [if_pos h, if_pos h, List.length_cons, Nat.add_comm]
  · rw [if_neg h, if_neg h, Nat.zero_add]

theorem partStep_fst_of_not_dead (st : List (Str × ℕ) × List (Str × List Str)) (r : Report)
    (hd : ¬ (r.report_type == str "dead_link") = true) : (partStep st r).1 = st.1 := by
  rw [partStep, if_neg hd]
  split <;> rfl

theorem partStep_snd_of_not_irr (st : List (Str × ℕ) × List (Str × List Str)) (r : Report)
    (hi : ¬ (r.report_type == str "irrelevant") = true) : (partStep st r).2 = st.2 := by
  rw [partStep]
  by_cases hd : (r.report_type == str "dead_link") = true
  · rw [if_pos hd]
  · rw [if_neg hd, if_neg hi]

theorem partStep_fold_dead (reports : List Report) (url : Str) :
    ∀ st : List (Str × ℕ) × List (Str × List Str),
      objGet (reports.foldl partStep st).1 url =
        if countDead reports url = 0 then objGet st.1 url
        else some ((objGet st.1 url).getD 0 + countDead reports url) := by
  induction reports with
  | nil =>
    intro st
    simp [countDead]
  | cons r rs ih =>
    intro st
    rw [List.foldl_cons, ih, countDead_cons]
    by_cases hd : (r.report_type == str "dead_link") = true
    · by_cases hu : (r.profile_url == url) = true
      · have hmatch : (r.report_type == str "dead_link" && r.profile_url == url) = true := by
          rw [hd, hu]
          rfl
        have hurl : r.profile_url = url := beq_iff_eq.mp hu
        have hfst : (partStep st r).1 =
            objSet st.1 r.profile_url ((objGet st.1 r.profile_url).getD 0 + 1) := by
          rw [partStep, if_pos hd]
        have hget : objGet (partStep st r).1 url =
            some ((objGet st.1 url).getD 0 + 1) := by
          rw [hfst, hurl, objGet_objSet, if_pos rfl]
        rw [if_pos hmatch, hget]
        by_cases hc : countDead rs url = 0
        · rw [if_pos hc, if_neg (by omega)]
          rw [hc]
        · rw [if_neg hc, if_neg (by omega)]
          have : (some ((objGet st.1 url).getD 0 + 1)).getD 0 =
              (objGet st.1 url).getD 0 + 1 := rfl
          rw [this]
          congr 1
          omega
      · have hmatch : ¬ (r.report_type == str "dead_link" && r.profile_url == url) = true := by
          rw [hd, Bool.true_and]
          exact fun hc => hu hc
        have hurl : ¬ url = r.profile_url := by
          intro hc
          exact hu (beq_iff_eq.mpr hc.symm)
        have hfst : (partStep st r).1 =
            objSet st.1 r.profile_url ((objGet st.1 r.profile_url).getD 0 + 1) := by
          rw [partStep, if_pos hd]
        have hget : objGet (partStep st r).1 url = objGet st.1 url := by
          rw [hfst, objGet_objSet, if_neg hurl]
        rw [if_neg hmatch, hget, Nat.zero_add]
    · have hmatch : ¬ (r.report_type == str "dead_link" && r.profile_url == url) = true := by
        intro hc
        rw [Bool.and_eq_true] at hc
        exact hd hc.1
      rw [if_neg hmatch, partStep_fst_of_not_dead st r hd, Nat.zero_add]

theorem irrAccumFrom_cons (r : Report) (rs : List Report) (url : Str) (init : List Str) :
    irrAccumFrom (r :: rs) url init =
      irrAccumFrom rs url
        (if (r.report_type == str "irrelevant" && r.profile_url == url) = true then
          setAdd init (r.query.getD []) else init) := by
  rw [irrAccumFrom, irrAccumFrom, List.foldl_cons]

theorem irrAccum_no_match (rs : List Report) (url : Str) (init : List Str)
    (h : countIrr rs url = 0) : irrAccumFrom rs url init = init := by
  induction rs generalizing init with
  | nil => rfl
  | cons r rs ih =>
    rw [countIrr_cons] at h
    by_cases hm : (r.report_type == str "irrelevant" && r.profile_url == url) = true
    · rw [if_pos hm] at h
      omega
    · rw [if_neg hm] at h
      rw [irrAccumFrom_cons, if_neg hm]
      exact ih init (by omega)

theorem partStep_fold_irr (reports : List Report) (url : Str) :
    ∀ st : List (Str × ℕ) × List (Str × List Str),
      objGet (reports.foldl partStep st).2 url =
        if countIrr reports url = 0 then objGet st.2 url
        else some (irrAccumFrom reports url ((objGet st.2 url).getD [])) := by
  induction reports with
  | nil =>
    intro st
    simp [countIrr]
  | cons r rs ih =>
    intro st
    rw [List.foldl_cons, ih, countIrr_cons, irrAccumFrom_cons]
    by_cases hi : (r.report_type == str "irrelevant") = true
    · have hty : r.report_type = str "irrelevant" := beq_iff_eq.mp hi
      have hd : ¬ (r.report_type == str "dead_link") = true := by
        rw [hty]
        decide
      by_cases hu : (r.profile_url == url) = true
      · have hmatch : (r.report_type == str "irrelevant" && r.profile_url == url) = true := by
          rw [hi, hu]
          rfl
        have hurl : r.profile_url = url := beq_iff_eq.mp hu
        have hsnd : (partStep st r).2 =
            objSet st.2 r.profile_url
              (setAdd ((objGet st.2 r.profile_url).getD []) (r.query.getD [])) := by
          rw [partStep, if_neg hd, if_pos hi]
        have hget : objGet (partStep st r).2 url =
            some (setAdd ((objGet st.2 url).getD []) (r.query.getD [])) := by
          rw [hsnd, hurl, objGet_objSet, if_pos rfl]
        rw [if_pos hmatch, hget]
        by_cases hc : countIrr rs url = 0
        · rw [if_pos hc, if_neg (by omega)]
          rw [if_pos hmatch, irrAccum_no_match rs url _ hc]
        · rw [if_neg hc, if_neg (by omega)]
          rw [if_pos hmatch]
          rfl
      · have hmatch : ¬ (r.report_type == str "irrelevant" && r.profile_url == url) = true := by
          rw [hi, Bool.true_and]
          exact fun hc => hu hc
        have hurl : ¬ url = r.profile_url := by
          intro hc
          exact hu (beq_iff_eq.mpr hc.symm)
        have hsnd : (partStep st r).2 =
            objSet st.2 r.profile_url
              (setAdd ((objGet st.2 r.profile_url).getD []) (r.query.getD [])) := by
          rw [partStep, if_neg hd, if_pos hi]
        have hget : objGet (partStep st r).2 url = objGet st.2 url := by
          rw [hsnd, objGet_objSet, if_neg hurl]
        rw [if_neg hmatch, hget, Nat.zero_add, if_neg hmatch]
    · have hmatch : ¬ (r.report_type == str "irrelevant" && r.profile_url == url) = true := by
        intro hc
        rw [Bool.and_eq_true] at hc
        exact hi hc.1
      rw [if_neg hmatch, partStep_snd_of_not_irr st r hi, Nat.zero_add, if_neg hmatch]

theorem partition_snd_keys_nodup (reports : List Report) :
    ∀ st : List (Str × ℕ) × List (Str × List Str),
      (keysOf st.2).Nodup → (keysOf (reports.foldl partStep st).2).Nodup := by
  induction reports with
  | nil =>
    intro st h
    exact h
  | cons r rs ih =>
    intro st h
    rw [List.foldl_cons]
    apply ih
    rw [partStep]
    by_cases hd : (r.report_type == str "dead_link") = true
    · rw [if_pos hd]
      exact h
    · rw [if_neg hd]
      by_cases hi : (r.report_type == str "irrelevant") = true
      · rw [if_pos hi]
        exact nodup_keysOf_objSet _ _ _ h
      · rw [if_neg hi]
        exact h

theorem foldl_deadStep (entries : List (Str × ℕ)) (url : Str) :
    ∀ init : List (Str × ℚ),
      objGet (entries.foldl deadStep init) url =
        if url ∈ keysOf entries then some (1/10) else objGet init url := by
  induction entries with
  | nil =>
    intro init
    simp [keysOf]
  | cons e es ih =>
    intro init
    rw [List.foldl_cons, ih]
    by_cases hk : url ∈ keysOf es
    · rw [if_pos hk, if_pos (by
        simp only [keysOf, List.map_cons, List.mem_cons]
        exact Or.inr hk)]
    · rw [if_neg hk]
      by_cases hu : url = e.1
      · rw [if_pos (by
          simp only [keysOf, List.map_cons, List.mem_cons]
          exact Or.inl hu)]
        rw [deadStep, objGet_objSet, if_pos hu]
      · rw [if_neg (by
          simp only [keysOf, List.map_cons, List.mem_cons, not_or]
          exact ⟨hu, hk⟩)]
        rw [deadStep, objGet_objSet, if_neg hu]

theorem foldl_irrStep_not_mem (entries : List (Str × List Str)) (url : Str)
    (h : url ∉ keysOf entries) :
    ∀ init : List (Str × ℚ),
      objGet (entries.foldl irrStep init) url = objGet init url := by
  induction entries with
  | nil =>
    intro init
    rfl
  | cons e es ih =>
    intro init
    simp only [keysOf, List.map_cons, List.mem_cons, not_or] at h
    rw [List.foldl_cons, ih (by
      simp only [keysOf]
      exact h.2)]
    rw [irrStep, objGet_objSet, if_neg h.1]

theorem foldl_irrStep (entries : List (Str × List Str)) (url : Str)
    (hnd : (keysOf entries).Nodup) :
    ∀ init : List (Str × ℚ),
      objGet (entries.foldl irrStep init) url =
        match objGet entries url with
        | some qs => some (min ((objGet init url).getD 1) (irrelevanceFactor qs.length))
        | none => objGet init url := by
  induction entries with
  | nil =>
    intro init
    rfl
  | cons e es ih =>
    intro init
    simp only [keysOf, List.map_cons, List.nodup_cons] at hnd
    rw [List.foldl_cons]
    by_cases hu : url = e.1
    · subst hu
      have hes : e.1 ∉ keysOf es := by
        simpa [keysOf] using hnd.1
      rw [foldl_irrStep_not_mem es e.1 hes]
      rw [irrStep, objGet_objSet, if_pos rfl]
      have hobj : objGet (e :: es) e.1 = some e.2 := by
        rw [objGet, if_pos (beq_iff_eq.mpr rfl)]
      rw [hobj]
    · rw [ih (by simpa [keysOf] using hnd.2)]
      have h1 : objGet (e :: es) url = objGet es url := by
        rw [objGet, if_neg (by
          rw [beq_iff_eq]
          exact fun hc => hu hc.symm)]
      have h2 : objGet (irrStep init e) url = objGet init url := by
        rw [irrStep, objGet_objSet, if_neg hu]
      rw [h1, h2]

theorem computePenalties_lookup (reports : List Report) (url : Str) :
    objGet (computePenalties reports) url =
      if countIrr reports url = 0 then
        (if countDead reports url = 0 then none else some ((1:ℚ)/10))
      else
        some (min (if countDead reports url = 0 then (1:ℚ) else 1/10)
          (irrelevanceFactor (distinctIrrQueries reports url).length)) := by
  unfold computePenalties partitionReports
  have hd := partStep_fold_dead reports url ([], [])
  have hi := partStep_fold_irr reports url ([], [])
  have hnd := partition_snd_keys_nodup reports ([], []) (by simp [keysOf])
  rw [foldl_irrStep _ url hnd]
  have hafter : objGet ((List.foldl partStep ([], []) reports).1.foldl deadStep []) url =
      if countDead reports url = 0 then none else some ((1:ℚ)/10) := by
    rw [foldl_deadStep]
    by_cases hc : countDead reports url = 0
    · have hnone : objGet (List.foldl partStep ([], []) reports).1 url = none := by
        rw [hd, if_pos hc]
        rfl
      rw [if_neg ((objGet_eq_none_iff _ _).mp hnone), if_pos hc]
      rfl
    · have hsome : objGet (List.foldl partStep ([], []) reports).1 url ≠ none := by
        rw [hd, if_neg hc]
        exact Option.some_ne_none _
      have hmem : url ∈ keysOf (List.foldl partStep ([], []) reports).1 := by
        by_contra hcm
        exact hsome ((objGet_eq_none_iff _ _).mpr hcm)
      rw [if_pos hmem, if_neg hc]
  by_cases hci : countIrr reports url = 0
  · have hnone : objGet (List.foldl partStep ([], []) reports).2 url = none := by
      rw [hi, if_pos hci]
      rfl
    rw [if_pos hci]
    simp only [hnone]
    exact hafter
  · have hsome : objGet (List.foldl partStep ([], []) reports).2 url =
        some (distinctIrrQueries reports url) := by
      rw [hi, if_neg hci]
      rfl
    rw [if_neg hci]
    simp only [hsome]
    rw [hafter]
    by_cases hc : countDead reports url = 0
    · rw [if_pos hc, if_pos hc]
      rfl
    · rw [if_neg hc, if_neg hc]
      rfl

theorem irrelevanceFactor_bounds (n : ℕ) :
    1/2 ≤ irrelevanceFactor n ∧ irrelevanceFactor n ≤ 1 := by
  constructor
  · exact le_max_left _ _
  · apply max_le
    · norm_num
    · exact pow_le_one₀ (by norm_num) (by norm_num)

/-- Claim C7: in the computed penalty table, a profile with at least one
dead-link report has multiplier exactly `0.1` regardless of how many
dead-link reports it has; a profile flagged irrelevant (and not dead-linked)
has multiplier `max(0.5, 0.9^n)` where `n` is the number of distinct queries
that flagged it; and a profile with both report types gets the minimum of the
two multipliers. -/
theorem C7_penalty_values (reports : List Report) (url : Str) :
    (countDead reports url ≠ 0 →
      objGet (computePenalties reports) url = some ((1:ℚ)/10)) ∧
    (countDead reports url = 0 → countIrr reports url ≠ 0 →
      objGet (computePenalties reports) url =
        some (max (1/2) ((9/10 : ℚ) ^ (distinctIrrQueries reports url).length))) ∧
    (countDead reports url ≠ 0 → countIrr reports url ≠ 0 →
      objGet (computePenalties reports) url =
        some (min ((1:ℚ)/10)
          (max (1/2) ((9/10 : ℚ) ^ (distinctIrrQueries reports url).length)))) := by
  refine ⟨?_, ?_, ?_⟩
  · intro hdead
    rw [computePenalties_lookup]
    by_cases hci : countIrr reports url = 0
    · rw [if_pos hci, if_neg hdead]
    · rw [if_neg hci, if_neg hdead]
      congr 1
      apply min_eq_left
      exact le_trans (by norm_num) (irrelevanceFactor_bounds _).1
  · intro hd0 hci
    rw [computePenalties_lookup, if_neg hci, if_pos hd0]
    congr 1
    rw [show irrelevanceFactor (distinctIrrQueries reports url).length =
      max (1/2) ((9/10 : ℚ) ^ (distinctIrrQueries reports url).length) from rfl]
    apply min_eq_right
    exact (irrelevanceFactor_bounds _).2
  · intro hdead hci
    rw [computePenalties_lookup, if_neg hci, if_neg hdead]
    rfl

/-- Claim C8: every multiplier in the computed penalty table lies in the
half-open interval `(0, 1]`: reports only ever demote, never boost or zero
out a profile. -/
theorem C8_penalty_in_unit_interval (reports : List Report) (url : Str) (v : ℚ)
    (h : objGet (computePenalties reports) url = some v) : 0 < v ∧ v ≤ 1 := by
  rw [computePenalties_lookup] at h
  by_cases hci : countIrr reports url = 0
  · rw [if_pos hci] at h
    by_cases hc : countDead reports url = 0
    · rw [if_pos hc] at h
      cases h
    · rw [if_neg hc] at h
      have hv : v = (1:ℚ)/10 := (Option.some.inj h).symm
      subst hv
      norm_num
  · rw [if_neg hci] at h
    have hv := (Option.some.inj h).symm
    subst hv
    have hfac := irrelevanceFactor_bounds (distinctIrrQueries reports url).length
    constructor
    · apply lt_min
      · by_cases hc : countDead reports url = 0
        · rw [if_pos hc]
          norm_num
        · rw [if_neg hc]
          norm_num
      · exact lt_of_lt_of_le (by norm_num) hfac.1
    · refine le_trans (min_le_left _ _) ?_
      by_cases hc : countDead reports url = 0
      · rw [if_pos hc]
      · rw [if_neg hc]
        norm_num

/-- Witness for `C7_penalty_values`: in `exReports`, profile `u0` has one
dead-link report and profile `u1` two irrelevance reports from distinct
queries. -/
theorem C7_penalty_values_witness :
    (countDead exReports (str "u0") ≠ 0 ∧
      objGet (computePenalties exReports) (str "u0") = some ((1:ℚ)/10)) ∧
    (countDead exReports (str "u1") = 0 ∧ countIrr exReports (str "u1") ≠ 0 ∧
      objGet (computePenalties exReports) (str "u1") =
        some (max (1/2) ((9/10 : ℚ) ^ (distinctIrrQueries exReports (str "u1")).length))) :=
  ⟨⟨by decide, (C7_penalty_values exReports (str "u0")).1 (by decide)⟩,
    ⟨by decide, by decide,
      (C7_penalty_values exReports (str "u1")).2.1 (by decide) (by decide)⟩⟩

/-- Witness for `C8_penalty_in_unit_interval` at the dead-linked profile of
`exReports`. -/
theorem C8_penalty_in_unit_interval_witness :
    (objGet (computePenalties exReports) (str "u0") = some ((1:ℚ)/10)) ∧
      (0 < (1:ℚ)/10 ∧ (1:ℚ)/10 ≤ 1) := by
  have h : objGet (computePenalties exReports) (str "u0") = some ((1:ℚ)/10) := by
    rw [computePenalties_lookup, if_pos (by decide), if_neg (by decide)]
  exact ⟨h, C8_penalty_in_unit_interval exReports (str "u0") ((1:ℚ)/10) h⟩

/-- Witness for `C2_low_geo_empty_with_note`: the query `uk` on an empty
corpus expands to six geo terms and matches zero profiles. -/
theorem C2_low_geo_empty_with_note_witness :
    ((analyzeQuery (buildLocationIndex ({} : ServerData).profilesMeta) (str "uk") none).1 ≠ [] ∧
      (geoMatchIdxs {}
        (analyzeQuery (buildLocationIndex ({} : ServerData).profilesMeta) (str "uk") none).1).length <
        GEO_FILTER_MIN) ∧
    ((searchProfilesServer {} none (str "uk") TOP_K_DISPLAY none).results = [] ∧
      (searchProfilesServer {} none (str "uk") TOP_K_DISPLAY none).geoNote =
        some (geoNoteFor
          (analyzeQuery (buildLocationIndex ({} : ServerData).profilesMeta) (str "uk") none).1) ∧
      geoNoteFor
        (analyzeQuery (buildLocationIndex ({} : ServerData).profilesMeta) (str "uk") none).1 ≠ [] ∧
      (∀ t ∈ (analyzeQuery (buildLocationIndex ({} : ServerData).profilesMeta) (str "uk") none).1,
        containsSub
          (geoNoteFor
            (analyzeQuery (buildLocationIndex ({} : ServerData).profilesMeta) (str "uk") none).1)
          (titleCase t) = true)) :=
  ⟨⟨by decide, by decide⟩,
    C2_low_geo_empty_with_note {} none (str "uk") TOP_K_DISPLAY none (by decide) (by decide)⟩

set_option maxRecDepth 100000 in
/-- Witness for `C3_fallback_full_browse`: the query `solar france` with no
query embedding on the five-profile France corpus; the strict filter is empty
because every raw relevance is zero. -/
theorem C3_fallback_full_browse_witness :
    ((analyzeQuery (buildLocationIndex exGeoData.profilesMeta) (str "solar france") none).1 ≠ [] ∧
      (analyzeQuery (buildLocationIndex exGeoData.profilesMeta) (str "solar france") none).2.1 ≠ [] ∧
      GEO_FILTER_MIN ≤ (geoMatchIdxs exGeoData
        (analyzeQuery (buildLocationIndex exGeoData.profilesMeta) (str "solar france") none).1).length ∧
      strictFiltered exGeoData none
        (analyzeQuery (buildLocationIndex exGeoData.profilesMeta) (str "solar france") none).2.1
        (geoMatchIdxs exGeoData
          (analyzeQuery (buildLocationIndex exGeoData.profilesMeta) (str "solar france") none).1)
        TOP_K_DISPLAY = []) ∧
    ((searchProfilesServer exGeoData none (str "solar france") TOP_K_DISPLAY none).queryType =
        str "geo+topic-fallback" ∧
      (searchProfilesServer exGeoData none (str "solar france") TOP_K_DISPLAY none).results =
        (geoBrowseSorted exGeoData
          (geoMatchIdxs exGeoData
            (analyzeQuery (buildLocationIndex exGeoData.profilesMeta) (str "solar france") none).1)).take
          TOP_K_GEO_BROWSE ∧
      (searchProfilesServer exGeoData none (str "solar france") TOP_K_DISPLAY none).results ≠ [] ∧
      (searchProfilesServer exGeoData none (str "solar france") TOP_K_DISPLAY none).results.Pairwise
        (fun a b => b.score ≤ a.score) ∧
      (∀ r ∈ (searchProfilesServer exGeoData none (str "solar france") TOP_K_DISPLAY none).results,
        r.score = ((r.profile.description.getD []).length : ℚ))) :=
  ⟨⟨by decide, by decide, by decide, strictFiltered_none exGeoData _ _ TOP_K_DISPLAY⟩,
    C3_fallback_full_browse exGeoData none (str "solar france") TOP_K_DISPLAY none
      (by decide) (by decide) (by decide) (strictFiltered_none exGeoData _ _ TOP_K_DISPLAY)⟩

set_option maxRecDepth 100000 in
/-- Witness for `C9_no_embedding_degrades`: the geo-only query `france` on
the France corpus returns a browse list; its first candidate entry carries
zero semantic relevance and a description-length score. -/
theorem C9_no_embedding_degrades_witness :
    browseEntry exGeoData 0 ∈
      (searchProfilesServer exGeoData none (str "france") TOP_K_DISPLAY none).results ∧
    ((browseEntry exGeoData 0).rawSemantic = 0 ∧
      (browseEntry exGeoData 0).score =
        (((browseEntry exGeoData 0).profile.description.getD []).length : ℚ)) := by
  have hs := search_tierA exGeoData none (str "france") TOP_K_DISPLAY none
    (by decide) (by decide) (by decide)
  have hlen : (geoBrowseSorted exGeoData
      (geoMatchIdxs exGeoData
        (analyzeQuery (buildLocationIndex exGeoData.profilesMeta) (str "france") none).1)).length ≤
      TOP_K_GEO_BROWSE := by
    rw [geoBrowseSorted, length_sortScored, List.length_map]
    decide
  have hmem : browseEntry exGeoData 0 ∈
      (searchProfilesServer exGeoData none (str "france") TOP_K_DISPLAY none).results := by
    rw [hs]
    show browseEntry exGeoData 0 ∈
      (geoBrowseSorted exGeoData
        (geoMatchIdxs exGeoData
          (analyzeQuery (buildLocationIndex exGeoData.profilesMeta) (str "france") none).1)).take
        TOP_K_GEO_BROWSE
    rw [List.take_of_length_le hlen, geoBrowseSorted, mem_sortScored]
    exact List.mem_map_of_mem _ (by decide)
  exact ⟨hmem,
    (C9_no_embedding_degrades exGeoData (str "france") TOP_K_DISPLAY none).2 _ hmem⟩

set_option maxRecDepth 100000 in
/-- Witness for `C4_strict_tier_guarantees`: the query `solar france` with
the unit query embedding `e₀` on the France corpus whose vector 0 decodes to
`e₀`; the Solar profile passes the strict filter. -/
theorem C4_strict_tier_guarantees_witness :
    ((analyzeQuery (buildLocationIndex exTopicData.profilesMeta) (str "solar france") none).1 ≠ [] ∧
      (analyzeQuery (buildLocationIndex exTopicData.profilesMeta) (str "solar france") none).2.1 ≠ [] ∧
      GEO_FILTER_MIN ≤ (geoMatchIdxs exTopicData
        (analyzeQuery (buildLocationIndex exTopicData.profilesMeta) (str "solar france") none).1).length ∧
      strictFiltered exTopicData (some exUnitQuery)
        (analyzeQuery (buildLocationIndex exTopicData.profilesMeta) (str "solar france") none).2.1
        (geoMatchIdxs exTopicData
          (analyzeQuery (buildLocationIndex exTopicData.profilesMeta) (str "solar france") none).1)
        TOP_K_DISPLAY ≠ []) ∧
    (∀ r ∈ (searchProfilesServer exTopicData (some exUnitQuery) (str "solar france")
        TOP_K_DISPLAY none).results,
      r ∈ (scoredGeoSorted exTopicData (some exUnitQuery)
        (analyzeQuery (buildLocationIndex exTopicData.profilesMeta) (str "solar france") none).2.1
        (geoMatchIdxs exTopicData
          (analyzeQuery (buildLocationIndex exTopicData.profilesMeta) (str "solar france") none).1)).take
            TOP_K_DISPLAY ∧
      RELEVANCE_THRESHOLD ≤ r.rawSemantic ∧
      0 < r.kwBoost ∧
      ∃ w ∈ (analyzeQuery (buildLocationIndex exTopicData.profilesMeta) (str "solar france") none).2.1,
        containsSub (profileText r.profile) w = true) := by
  have hsem : cosineSimilarityInt8 exUnitQuery exTopicData.embInt8 exTopicData.embScales 0 = 1 := by
    rw [show exUnitQuery = ((1:ℚ) :: List.replicate 383 0) from rfl, cosineInt8_e0]
    have hb : exTopicData.embInt8.getD (0 * EMBED_DIM + 0) 0 = 127 := by decide
    have hs0 : exTopicData.embScales.getD (0 * 2) 0 = 0 := by decide
    have hs1 : exTopicData.embScales.getD (0 * 2 + 1) 0 = 0 := by decide
    simp only [dequantAt, hb, hs0, hs1]
    rw [if_pos (by norm_num)]
    norm_num
  have hkw : topicKeywordBoost (exTopicData.profilesMeta.getD 0 default) [str "solar"] = 1 := by
    have hp0 : exTopicData.profilesMeta.getD 0 default =
      exFrProfile "u0" "Solar Co-op" "solar power cooperative" := by decide
    rw [hp0, topicKeywordBoost_eq_spec]
    unfold specKeywordBoost
    rw [if_neg (by decide)]
    rw [show ([str "solar"].filter (fun w =>
      containsSub (profileText (exFrProfile "u0" "Solar Co-op" "solar power cooperative")) w)) =
      [str "solar"] from by decide]
    norm_num
  have h3 : strictFiltered exTopicData (some exUnitQuery)
      (analyzeQuery (buildLocationIndex exTopicData.profilesMeta) (str "solar france") none).2.1
      (geoMatchIdxs exTopicData
        (analyzeQuery (buildLocationIndex exTopicData.profilesMeta) (str "solar france") none).1)
      TOP_K_DISPLAY ≠ [] := by
    have htw' : (analyzeQuery (buildLocationIndex exTopicData.profilesMeta)
        (str "solar france") none).2.1 = [str "solar"] := by decide
    have hgms : geoMatchIdxs exTopicData
        (analyzeQuery (buildLocationIndex exTopicData.profilesMeta) (str "solar france") none).1 =
        [0, 1, 2, 3, 4] := by decide
    have hraw : (scoreProfile exTopicData (some exUnitQuery) [str "solar"] 0 1).rawSemantic = 1 := by
      simp only [scoreProfile]
      rw [hsem, hkw]
      norm_num
    have hkb : (scoreProfile exTopicData (some exUnitQuery) [str "solar"] 0 1).kwBoost = 1 := by
      simp only [scoreProfile]
      exact hkw
    rw [htw', hgms]
    apply List.ne_nil_of_mem
      (a := scoreProfile exTopicData (some exUnitQuery) [str "solar"] 0 1)
    rw [strictFiltered, List.mem_filter]
    refine ⟨?_, ?_⟩
    · have hlen : (scoredGeoSorted exTopicData (some exUnitQuery) [str "solar"]
          [0, 1, 2, 3, 4]).length ≤ TOP_K_DISPLAY := by
        rw [scoredGeoSorted, length_sortScored, List.length_map]
        decide
      rw [List.take_of_length_le hlen, scoredGeoSorted, mem_sortScored]
      exact List.mem_map_of_mem _ (by decide)
    · simp only [Bool.and_eq_true, decide_eq_true_eq, hraw, hkb]
      constructor
      · norm_num [RELEVANCE_THRESHOLD]
      · norm_num
  exact ⟨⟨by decide, by decide, by decide, h3⟩,
    C4_strict_tier_guarantees exTopicData (some exUnitQuery) (str "solar france") none
      (by decide) (by decide) (by decide) h3⟩
